import Mathlib

/-! Verification of msplibs, `2_blink_led_push_button_clock_speed/main.c`.

A shallow embedding of the firmware in `main.c` (MSP430FR2355 Launchpad): the
clock configurator `set_clock_system`, the pin initialiser `configure_pins`,
the two LED routines and the polling loop of `main`.

* Memory-mapped registers are a register file `Reg → Nat`; every store is
  reduced modulo `2 ^ width`.
* Registers whose bits are driven by the hardware (`SFRIFG1`, `CSCTL7`, `P2IN`,
  `P4IN`) are read from an externally supplied sequence `Env`: the `k`-th read
  of register `r` sees `env r k`.
* Every store, every hardware read, every `__delay_cycles` and every function
  entry is appended to a trace, so that order and frame properties can be
  stated.
* The two busy-wait loops of `set_clock_system` take a fuel argument; `none`
  means the fuel ran out.
-/

namespace Msplibs

/-- Registers accessed by `main.c`; `SR` is the CPU status register reached
through `__bis_SR_register` and `__bic_SR_register`. -/
inductive Reg
  | WDTCTL | PM5CTL0 | FRCTL0 | SFRIFG1 | SR
  | CSCTL0 | CSCTL1 | CSCTL2 | CSCTL3 | CSCTL4 | CSCTL7
  | P1DIR | P1OUT
  | P2SEL1 | P2REN | P2OUT | P2IN
  | P4REN | P4OUT | P4IN
  | P6DIR | P6OUT
  deriving DecidableEq, Repr

/-- Modelled from the spec: `msp430.h`, which declares the registers, is not
under src/. Width in bits of each register: the digital I/O port registers are
byte registers, the clock system, FRAM controller, watchdog, power management
and special function registers (and `SR`) are word registers. -/
def width : Reg → Nat
  | .P1DIR | .P1OUT | .P2SEL1 | .P2REN | .P2OUT | .P2IN
  | .P4REN | .P4OUT | .P4IN | .P6DIR | .P6OUT => 8
  | _ => 16

/-- Constants of the device header `msp430.h` used by `main.c`. The header is
not under src/, so the program is parameterised by their values. -/
structure Header where
  WDTPW : Nat
  WDTHOLD : Nat
  LOCKLPM5 : Nat
  FRCTLPW : Nat
  NWAITS_2 : Nat
  XT1OFFG : Nat
  DCOFFG : Nat
  OFIFG : Nat
  SCG0 : Nat
  SELREF__XT1CLK : Nat
  DCORSEL_3 : Nat
  DCORSEL_7 : Nat
  FLLD_0 : Nat
  FLLUNLOCK0 : Nat
  FLLUNLOCK1 : Nat
  SELMS__DCOCLKDIV : Nat
  SELA__REFOCLK : Nat

/-- The values written to `CSCTL1` and `CSCTL2` fit the 16-bit registers. -/
def Header.Fits (hdr : Header) : Prop :=
  hdr.DCORSEL_3 < 2 ^ 16 ∧ hdr.DCORSEL_7 < 2 ^ 16 ∧ hdr.FLLD_0 + 731 < 2 ^ 16

instance (hdr : Header) : Decidable hdr.Fits := by
  unfold Header.Fits; infer_instance

/-- Modelled from the spec: `msp430.h` is not under src/. The pinout in the
header comment of `main.c` puts the red LED on P1.0, the green LED on P6.6,
push button 1 on P2.3 and push button 2 on P4.1; `BITn` is the mask of bit
`n`. -/
def BIT0 : Nat := 0x0001

/-- Modelled from the spec: mask of bit 1 (`msp430.h` is not under src/). -/
def BIT1 : Nat := 0x0002

/-- Modelled from the spec: mask of bit 3 (`msp430.h` is not under src/). -/
def BIT3 : Nat := 0x0008

/-- Modelled from the spec: mask of bit 6 (`msp430.h` is not under src/). -/
def BIT6 : Nat := 0x0040

/-- Modelled from the spec: mask of bit 7 (`msp430.h` is not under src/). -/
def BIT7 : Nat := 0x0080

/-- Red LED, `#define LED BIT0`. -/
def LED : Nat := BIT0

/-- Green LED, `#define LED1 BIT6`. -/
def LED1 : Nat := BIT6

/-- Push button 1, `#define BUTTON BIT3`. -/
def BUTTON : Nat := BIT3

/-- Push button 2, `#define BUTTON1 BIT1`. -/
def BUTTON1 : Nat := BIT1

/-- Busy-wait length, `#define DELAY 5000000`. -/
def DELAY : Nat := 5000000

/-- Hardware inputs: `env r k` is the value seen by the `k`-th read of the
hardware-driven register `r`. -/
abbrev Env := Reg → Nat → Nat

/-- Observable actions of the program, in program order. -/
inductive Event
  | read (r : Reg) (v : Nat)
  | write (r : Reg) (v : Nat)
  | delay (cycles : Nat)
  | call_set_clock_system (mode : Int)
  | call_configure_pins
  | call_blink_led (times_to_blink : Int)
  | call_signal_clock_change_success
  deriving DecidableEq, Repr

/-- Machine state: the register file, the number of hardware reads made of each
register so far, the trace, and the two locals of `main`. -/
structure State where
  regs : Reg → Nat
  nread : Reg → Nat
  trace : List Event
  clock_mode : Int
  led_blinks : Int

/-- Appends an event to the trace. -/
def State.log (s : State) (e : Event) : State :=
  { s with trace := s.trace ++ [e] }

/-- Value of a register that reads back what was last stored. -/
def State.load (s : State) (r : Reg) : Nat := s.regs r

/-- Store to a register, truncated to the register width. -/
def State.store (s : State) (r : Reg) (v : Nat) : State :=
  { s with
    regs := fun r' => if r' = r then v % 2 ^ width r else s.regs r'
    trace := s.trace ++ [Event.write r (v % 2 ^ width r)] }

/-- Value that the next read of the hardware-driven register `r` returns. -/
def State.peek (env : Env) (s : State) (r : Reg) : Nat := env r (s.nread r)

/-- Performs the read of the hardware-driven register `r`: logs it and moves to
the next element of the input sequence. -/
def State.input (env : Env) (s : State) (r : Reg) : State :=
  { s with
    nread := fun r' => if r' = r then s.nread r + 1 else s.nread r'
    trace := s.trace ++ [Event.read r (s.peek env r)] }

/-- The intrinsic `__delay_cycles(cycles)`. -/
def State.wait (s : State) (cycles : Nat) : State :=
  s.log (Event.delay cycles)

/-- Assignment to the local `clock_mode` of `main`. -/
def State.set_clock_mode (s : State) (v : Int) : State :=
  { s with clock_mode := v }

/-- Assignment to the local `led_blinks` of `main`. -/
def State.set_led_blinks (s : State) (v : Int) : State :=
  { s with led_blinks := v }

/-- Bitwise complement `~x` at `int` width (16 bits on this target). -/
def NOT (x : Nat) : Nat := (2 ^ 16 - 1) ^^^ (x % 2 ^ 16)

/-- Modelled from the spec: `lib/bits.h` is not under src/. `CLR_BIT(Y, bit)`
clears the masked bit of register `Y`, that is `Y &= ~(bit)`. -/
def CLR_BIT (s : State) (y : Reg) (bit : Nat) : State :=
  s.store y (s.load y &&& NOT bit)

/-- Modelled from the spec: `lib/bits.h` is not under src/. `TST_BIT(Y, bit)`
is `Y & (bit)`: zero exactly when the masked bit of the value read is low. -/
def TST_BIT (y bit : Nat) : Nat := y &&& bit

/-- Body of the do-while loop of `set_clock_system` (lines 65-66): clears the
XT1 and DCO fault flags and the oscillator fault flag, each by a
read-modify-write. -/
def fault_clear_body (hdr : Header) (env : Env) (s : State) : State :=
  let s1 := (s.input env .CSCTL7).store .CSCTL7
    (s.peek env .CSCTL7 &&& NOT (hdr.XT1OFFG ||| hdr.DCOFFG))
  (s1.input env .SFRIFG1).store .SFRIFG1 (s1.peek env .SFRIFG1 &&& NOT hdr.OFIFG)

/-- The loop `do { ... } while (SFRIFG1 & OFIFG);` (lines 63-67). -/
def fault_clear_loop (hdr : Header) (env : Env) : Nat → State → Option State
  | 0, _ => none
  | fuel + 1, s =>
    let s1 := fault_clear_body hdr env s
    if s1.peek env .SFRIFG1 &&& hdr.OFIFG ≠ 0 then
      fault_clear_loop hdr env fuel (s1.input env .SFRIFG1)
    else
      some (s1.input env .SFRIFG1)

/-- The loop `while(CSCTL7 & (FLLUNLOCK0 | FLLUNLOCK1));` (line 83). -/
def fll_wait_loop (hdr : Header) (env : Env) : Nat → State → Option State
  | 0, _ => none
  | fuel + 1, s =>
    if s.peek env .CSCTL7 &&& (hdr.FLLUNLOCK0 ||| hdr.FLLUNLOCK1) ≠ 0 then
      fll_wait_loop hdr env fuel (s.input env .CSCTL7)
    else
      some (s.input env .CSCTL7)

/-- Lines 60-62 of `set_clock_system`: FRAM wait states and crystal pins. -/
def clock_prepare (hdr : Header) (mode : Int) (s : State) : State :=
  let s := s.log (Event.call_set_clock_system mode)
  let s := s.store .FRCTL0 (hdr.FRCTLPW ||| hdr.NWAITS_2)
  s.store .P2SEL1 (s.load .P2SEL1 ||| (BIT6 ||| BIT7))

/-- Lines 69-82 of `set_clock_system`: with the FLL disabled, selects the
reference, clears `CSCTL0`, writes the range and the multiplier for `mode`,
waits three cycles and enables the FLL again. -/
def clock_tune (hdr : Header) (mode : Int) (s : State) : State :=
  let s := s.store .SR (s.load .SR ||| hdr.SCG0)
  let s := s.store .CSCTL3 (s.load .CSCTL3 ||| hdr.SELREF__XT1CLK)
  let s := s.store .CSCTL0 0
  let s := s.store .CSCTL1 (if mode ≠ 0 then hdr.DCORSEL_7 else hdr.DCORSEL_3)
  let s := s.store .CSCTL2 (hdr.FLLD_0 + (if mode ≠ 0 then 731 else 244))
  let s := s.wait 3
  s.store .SR (s.load .SR &&& NOT hdr.SCG0)

/-- Line 92 of `set_clock_system`: clock source selection. -/
def clock_select (hdr : Header) (s : State) : State :=
  s.store .CSCTL4 (hdr.SELMS__DCOCLKDIV ||| hdr.SELA__REFOCLK)

/-- The function `void set_clock_system(int mode)`. -/
def set_clock_system (hdr : Header) (env : Env) (fuel : Nat) (mode : Int)
    (s : State) : Option State :=
  (fault_clear_loop hdr env fuel (clock_prepare hdr mode s)).bind fun s =>
  (fll_wait_loop hdr env fuel (clock_tune hdr mode s)).bind fun s =>
  some (clock_select hdr s)

/-- The function `void configure_pins(void)`. -/
def configure_pins (s : State) : State :=
  let s := s.log Event.call_configure_pins
  let s := s.store .P1DIR (s.load .P1DIR ||| LED)
  let s := CLR_BIT s .P1OUT LED
  let s := s.store .P6DIR (s.load .P6DIR ||| LED1)
  let s := CLR_BIT s .P6OUT LED1
  let s := s.store .P2REN (s.load .P2REN ||| BUTTON)
  let s := s.store .P2OUT (s.load .P2OUT ||| BUTTON)
  let s := s.store .P4REN (s.load .P4REN ||| BUTTON1)
  s.store .P4OUT (s.load .P4OUT ||| BUTTON1)

/-- One pass through the body of the `for` loop of `blink_led`. -/
def blink_once (s : State) : State :=
  let s := s.store .P1OUT (s.load .P1OUT ^^^ LED)
  let s := s.wait DELAY
  let s := s.store .P1OUT (s.load .P1OUT ^^^ LED)
  s.wait DELAY

/-- The loop `for(i = times_to_blink; i > 0; i--)`, by recursion on the
positive counter `i`; the loop exits as soon as `i > 0` fails. -/
def blink_led_loop : Nat → State → State
  | 0, s => s
  | i + 1, s => blink_led_loop i (blink_once s)

/-- The function `void blink_led(int times_to_blink)`; a counter that is zero
or negative fails the test `i > 0` at once. -/
def blink_led (times_to_blink : Int) (s : State) : State :=
  blink_led_loop times_to_blink.toNat (s.log (Event.call_blink_led times_to_blink))

/-- The function `void signal_clock_change_success(void)`. -/
def signal_clock_change_success (s : State) : State :=
  let s := s.log Event.call_signal_clock_change_success
  let s := s.store .P6OUT (s.load .P6OUT ^^^ LED1)
  let s := s.wait DELAY
  s.store .P6OUT (s.load .P6OUT ^^^ LED1)

/-- Lines 126-131 of `main`: watchdog, GPIO unlock and the two locals. -/
def main_prologue (hdr : Header) (s : State) : State :=
  let s := s.store .WDTCTL (hdr.WDTPW ||| hdr.WDTHOLD)
  let s := s.store .PM5CTL0 (s.load .PM5CTL0 &&& NOT hdr.LOCKLPM5)
  let s := s.set_clock_mode 1
  s.set_led_blinks 3

/-- Lines 126-134 of `main`: everything before `while(1)`. -/
def main_init (hdr : Header) (env : Env) (fuel : Nat) (s : State) : Option State :=
  let s := main_prologue hdr s
  (set_clock_system hdr env fuel s.clock_mode s).bind fun s =>
  some (configure_pins s)

/-- Lines 138-141 of `main`: the branch taken when push button 2 reads low. -/
def button2_branch (hdr : Header) (env : Env) (fuel : Nat) (s : State) : Option State :=
  let s := s.set_clock_mode (if s.clock_mode = 0 then 1 else 0)
  (set_clock_system hdr env fuel s.clock_mode s).bind fun s =>
  let s := signal_clock_change_success s
  some (s.wait (DELAY / 2))

/-- Lines 145-146 of `main`: the branch taken when push button 1 reads low. -/
def button1_branch (s : State) : State :=
  let s := blink_led s.led_blinks s
  s.set_led_blinks (if s.led_blinks = 3 then 7 else 3)

/-- Lines 144-147 of `main`: the test of push button 1 and its branch. -/
def button1_check (env : Env) (s : State) : State :=
  if TST_BIT (s.peek env .P2IN) BUTTON = 0 then
    button1_branch (s.input env .P2IN)
  else
    s.input env .P2IN

/-- One iteration of `while(1)` in `main` (lines 137-147). -/
def loop_body (hdr : Header) (env : Env) (fuel : Nat) (s : State) : Option State :=
  (if TST_BIT (s.peek env .P4IN) BUTTON1 = 0 then
      button2_branch hdr env fuel (s.input env .P4IN)
    else
      some (s.input env .P4IN)).bind fun s =>
  some (button1_check env s)

/-- The first `k` iterations of `while(1)`. -/
def main_loop (hdr : Header) (env : Env) (fuel : Nat) : Nat → State → Option State
  | 0, s => some s
  | k + 1, s => (loop_body hdr env fuel s).bind (main_loop hdr env fuel k)

/-- The function `void main(void)` run up to the start of iteration `k` of its
endless loop. -/
def main (hdr : Header) (env : Env) (fuel : Nat) (k : Nat) (s : State) : Option State :=
  (main_init hdr env fuel s).bind (main_loop hdr env fuel k)

/-- A concrete header for the examples: the values these constants have in the
MSP430FR2355 device header. -/
def msp430fr2355 : Header where
  WDTPW := 0x5A00
  WDTHOLD := 0x0080
  LOCKLPM5 := 0x0001
  FRCTLPW := 0xA500
  NWAITS_2 := 0x0020
  XT1OFFG := 0x0002
  DCOFFG := 0x0001
  OFIFG := 0x0002
  SCG0 := 0x0040
  SELREF__XT1CLK := 0x0000
  DCORSEL_3 := 0x0006
  DCORSEL_7 := 0x000E
  FLLD_0 := 0x0000
  FLLUNLOCK0 := 0x0100
  FLLUNLOCK1 := 0x0200
  SELMS__DCOCLKDIV := 0x0000
  SELA__REFOCLK := 0x0100

/-- State at power-on used in the examples: registers cleared, nothing read,
nothing traced. -/
def power_on : State :=
  { regs := fun _ => 0, nread := fun _ => 0, trace := [], clock_mode := 0, led_blinks := 0 }

/-- Inputs with a stable oscillator and both buttons held down. -/
def env_both : Env := fun _ _ => 0

/-- Inputs with a stable oscillator and only push button 1 held down. -/
def env_button1 : Env := fun r _ =>
  match r with
  | .P4IN => BUTTON1
  | _ => 0

/-- Inputs with a stable oscillator and only push button 2 held down. -/
def env_button2 : Env := fun r _ =>
  match r with
  | .P2IN => BUTTON
  | _ => 0

/-- Inputs where the oscillator fault flag reads set twice and the FLL reads
unlocked for a while, with the buttons pressed now and then. -/
def env_slow : Env := fun r k =>
  match r with
  | .SFRIFG1 => if k < 4 then 0x0002 else 0
  | .CSCTL7 => if k < 5 then 0x0300 else 0
  | .P2IN => if k % 2 = 0 then 0 else BUTTON
  | .P4IN => if k % 3 = 0 then 0 else BUTTON1
  | _ => 0

/-! ## Observers on traces and states -/

/-- Registers written by `set_clock_system`. -/
def clock_reg : Reg → Bool
  | .FRCTL0 | .P2SEL1 | .SFRIFG1 | .SR
  | .CSCTL0 | .CSCTL1 | .CSCTL2 | .CSCTL3 | .CSCTL4 | .CSCTL7 => true
  | _ => false

/-- Actions that `set_clock_system` performs after its entry: stores to the
registers of `clock_reg`, status reads of `SFRIFG1` and `CSCTL7`, and the
three-cycle wait. -/
def clock_event : Event → Bool
  | .write r _ => clock_reg r
  | .read r _ => decide (r = .SFRIFG1 ∨ r = .CSCTL7)
  | .delay cycles => decide (cycles = 3)
  | _ => false

/-- Argument of a call of `blink_led`. -/
def blink_call : Event → Option Int
  | .call_blink_led n => some n
  | _ => none

/-- Arguments of the calls of `blink_led` in a trace, oldest first. -/
def blink_calls (tr : List Event) : List Int := tr.filterMap blink_call

/-- A read of `P2IN` that shows push button 1 low, that is a serviced press of
button 1. -/
def button1_press : Event → Bool
  | .read .P2IN v => decide (TST_BIT v BUTTON = 0)
  | _ => false

/-- A read of `P4IN` that shows push button 2 low, that is a serviced press of
button 2. -/
def button2_press : Event → Bool
  | .read .P4IN v => decide (TST_BIT v BUTTON1 = 0)
  | _ => false

/-- A store to the red LED port `P1OUT`. -/
def red_write : Event → Bool
  | .write .P1OUT _ => true
  | _ => false

/-- A store to the green LED port `P6OUT`. -/
def green_write : Event → Bool
  | .write .P6OUT _ => true
  | _ => false

/-- A store to any register of `clock_reg`. -/
def clock_write : Event → Bool
  | .write r _ => clock_reg r
  | _ => false

/-- A `__delay_cycles` of any length. -/
def is_delay : Event → Bool
  | .delay _ => true
  | _ => false

/-- Events of `i` passes through the loop of `blink_led` when `P1OUT` holds `x`
on entry: toggle, wait, toggle back, wait. -/
def blink_events (x : Nat) : Nat → List Event
  | 0 => []
  | i + 1 =>
    [.write .P1OUT (x ^^^ LED), .delay DELAY, .write .P1OUT x, .delay DELAY]
      ++ blink_events x i

/-- Events of `signal_clock_change_success` when `P6OUT` holds `y` on entry. -/
def signal_events (y : Nat) : List Event :=
  [.call_signal_clock_change_success, .write .P6OUT (y ^^^ LED1), .delay DELAY,
    .write .P6OUT y]

/-- Effect of a part of `set_clock_system` on everything but the clock system:
the locals of `main`, the other registers and the other input sequences are
untouched, and the trace grows by clock events only. -/
def ClockStep (s s' : State) : Prop :=
  s'.clock_mode = s.clock_mode ∧ s'.led_blinks = s.led_blinks ∧
  (∀ r, clock_reg r = false → s'.regs r = s.regs r) ∧
  (∀ r, r ≠ .SFRIFG1 → r ≠ .CSCTL7 → s'.nread r = s.nread r) ∧
  ∃ evs, s'.trace = s.trace ++ evs ∧ ∀ e ∈ evs, clock_event e = true

/-- The `k`-th test `SFRIFG1 & OFIFG` of the fault-clear loop entered in state
`s` reads the oscillator fault flag clear. Every pass makes two reads of
`SFRIFG1`: the read-modify-write of line 66 and then the test of line 67. -/
def ofifg_test_clear (hdr : Header) (env : Env) (s : State) (k : Nat) : Prop :=
  env .SFRIFG1 (s.nread .SFRIFG1 + 2 * k + 1) &&& hdr.OFIFG = 0

/-- The `i`-th read of `CSCTL7` counted from state `s` shows both `FLLUNLOCK0`
and `FLLUNLOCK1` clear. -/
def fll_read_locked (hdr : Header) (env : Env) (s : State) (i : Nat) : Prop :=
  env .CSCTL7 (s.nread .CSCTL7 + i) &&& (hdr.FLLUNLOCK0 ||| hdr.FLLUNLOCK1) = 0

/-- The call `set_clock_system(mode)` from state `s` returns. -/
def Returns (hdr : Header) (env : Env) (mode : Int) (s : State) : Prop :=
  ∃ fuel s', set_clock_system hdr env fuel mode s = some s'

/-- The test read number `K` is the first one of the fault-clear loop entered
in state `s` that reads the oscillator fault flag clear. -/
def first_clear (hdr : Header) (env : Env) (s : State) (K : Nat) : Prop :=
  ofifg_test_clear hdr env s K ∧ ∀ k, k < K → ¬ ofifg_test_clear hdr env s k

/-- The read number `j` of `CSCTL7`, counted from state `s`, is the first one
that shows the FLL locked. -/
def first_locked (hdr : Header) (env : Env) (s : State) (j : Nat) : Prop :=
  fll_read_locked hdr env s j ∧ ∀ i, i < j → ¬ fll_read_locked hdr env s i

/-- A store to `SFRIFG1`; the body of the fault-clear loop makes exactly one
per pass and nothing else in the program makes any. -/
def fault_clear_write : Event → Bool
  | .write .SFRIFG1 _ => true
  | _ => false

/-- The blink counts of the first `N` serviced presses of button 1 as the header
comment of `main.c` lists them: 3, 7, 3, 7, ... -/
def alternating (N : Nat) : List Int :=
  (List.range N).map fun i => if i % 2 = 0 then 3 else 7

/-- Register part of the loop invariant of `main`: both LEDs are off, the mode
flag is 0 or 1 and the tuning registers hold the values that belong to it. -/
def RegInv (hdr : Header) (s : State) : Prop :=
  s.regs .P1OUT < 2 ^ 8 ∧ s.regs .P6OUT < 2 ^ 8 ∧
  s.regs .P1OUT &&& LED = 0 ∧ s.regs .P6OUT &&& LED1 = 0 ∧
  (s.clock_mode = 0 ∨ s.clock_mode = 1) ∧
  s.regs .CSCTL1 = (if s.clock_mode ≠ 0 then hdr.DCORSEL_7 else hdr.DCORSEL_3) % 2 ^ 16 ∧
  s.regs .CSCTL2 = (hdr.FLLD_0 + (if s.clock_mode ≠ 0 then 731 else 244)) % 2 ^ 16

/-- Trace part of the loop invariant of `main`: the calls of `blink_led` so far
alternate between 3 and 7, one per serviced press of button 1, and the two
locals are determined by the parity of the serviced presses. -/
def TraceInv (s : State) : Prop :=
  blink_calls s.trace = alternating (s.trace.countP button1_press) ∧
  s.led_blinks = (if s.trace.countP button1_press % 2 = 0 then 3 else 7) ∧
  s.clock_mode = (if s.trace.countP button2_press % 2 = 0 then 1 else 0)

/-- An event that is neither a button read nor a call of `blink_led`. -/
def quiet_event (e : Event) : Prop :=
  blink_call e = none ∧ button1_press e = false ∧ button2_press e = false

/-- State at the start of the first iteration of the main loop, reached from
`power_on` with a stable oscillator. -/
def after_init : State :=
  (main msp430fr2355 env_both 1 0 power_on).getD power_on

/-- Value of the most recent store to register `r` in a trace, if there is
one. -/
def last_write (r : Reg) (tr : List Event) : Option Nat :=
  tr.foldl (fun acc e =>
    match e with
    | .write r' v => if r' = r then some v else acc
    | _ => acc) none

/-- The register file entry of `CSCTL2` is the value of the most recent store
to `CSCTL2` recorded in the trace. -/
def TuningLogged (s : State) : Prop :=
  last_write .CSCTL2 s.trace = some (s.regs .CSCTL2)

/-- Inputs of an oscillator that never stabilises: every status read shows every
flag set. -/
def env_stuck : Env := fun _ _ => 0xFFFF

/-- Inputs of a stable oscillator: every read of `SFRIFG1` shows `OFIFG` clear
and every read of `CSCTL7` shows the FLL locked. -/
def Stable (hdr : Header) (env : Env) : Prop :=
  (∀ i, env .SFRIFG1 i &&& hdr.OFIFG = 0) ∧
  (∀ i, env .CSCTL7 i &&& (hdr.FLLUNLOCK0 ||| hdr.FLLUNLOCK1) = 0)

set_option maxRecDepth 100000

/-! ## Bit-level facts -/

theorem or_mask_and (x m : Nat) (hm : m < 2 ^ 8) : ((x ||| m) % 2 ^ 8) &&& m = m := by
  apply Nat.eq_of_testBit_eq
  intro i
  simp only [Nat.testBit_and, Nat.testBit_mod_two_pow, Nat.testBit_or]
  by_cases hi : i < 8
  · cases hb : m.testBit i <;> simp [hi]
  · have : m.testBit i = false :=
      Nat.testBit_lt_two_pow (lt_of_lt_of_le hm (Nat.pow_le_pow_right (by norm_num) (by omega)))
    simp [this]

theorem clr_mask_and (x m : Nat) : ((x &&& NOT m) % 2 ^ 8) &&& m = 0 := by
  apply Nat.eq_of_testBit_eq
  intro i
  simp only [NOT, Nat.testBit_and, Nat.testBit_mod_two_pow, Nat.testBit_xor,
    Nat.testBit_two_pow_sub_one, Nat.zero_testBit]
  by_cases hi : i < 8
  · have : i < 16 := by omega
    simp [hi, this]
  · simp [hi]

theorem xor_lt_byte (x m : Nat) (hx : x < 2 ^ 8) (hm : m < 2 ^ 8) : x ^^^ m < 2 ^ 8 :=
  Nat.xor_lt_two_pow hx hm

theorem toggle_twice (x m : Nat) (hx : x < 2 ^ 8) (hm : m < 2 ^ 8) :
    (((x ^^^ m) % 2 ^ 8) ^^^ m) % 2 ^ 8 = x := by
  rw [Nat.mod_eq_of_lt (xor_lt_byte x m hx hm), Nat.xor_assoc, Nat.xor_self, Nat.xor_zero,
    Nat.mod_eq_of_lt hx]

/-! ## `configure_pins` -/

/-- C4: for every initial register file, after `configure_pins` the LED bit of
P1DIR and the LED1 bit of P6DIR are 1, the LED bit of P1OUT and the LED1 bit of
P6OUT are 0, and the BUTTON bit is 1 in P2REN and P2OUT and the BUTTON1 bit is 1
in P4REN and P4OUT. -/
theorem configure_pins_postcondition (s : State) :
    (configure_pins s).regs .P1DIR &&& LED = LED ∧
    (configure_pins s).regs .P6DIR &&& LED1 = LED1 ∧
    (configure_pins s).regs .P1OUT &&& LED = 0 ∧
    (configure_pins s).regs .P6OUT &&& LED1 = 0 ∧
    (configure_pins s).regs .P2REN &&& BUTTON = BUTTON ∧
    (configure_pins s).regs .P2OUT &&& BUTTON = BUTTON ∧
    (configure_pins s).regs .P4REN &&& BUTTON1 = BUTTON1 ∧
    (configure_pins s).regs .P4OUT &&& BUTTON1 = BUTTON1 := by
  simp only [configure_pins, CLR_BIT, State.store, State.load, State.log, width]
  simp only [reduceCtorEq, if_true, if_false]
  refine ⟨or_mask_and _ _ (by decide), or_mask_and _ _ (by decide), clr_mask_and _ _,
    clr_mask_and _ _, or_mask_and _ _ (by decide), or_mask_and _ _ (by decide),
    or_mask_and _ _ (by decide), or_mask_and _ _ (by decide)⟩

/-! ## Primitive state operations -/

@[simp] theorem store_regs_same (s : State) (r : Reg) (v : Nat) :
    (s.store r v).regs r = v % 2 ^ width r := by
  simp [State.store]

theorem store_regs_ne (s : State) (r r' : Reg) (v : Nat) (h : r' ≠ r) :
    (s.store r v).regs r' = s.regs r' := by
  simp [State.store, h]

@[simp] theorem store_nread (s : State) (r : Reg) (v : Nat) :
    (s.store r v).nread = s.nread := rfl

@[simp] theorem store_trace (s : State) (r : Reg) (v : Nat) :
    (s.store r v).trace = s.trace ++ [Event.write r (v % 2 ^ width r)] := rfl

@[simp] theorem store_clock_mode (s : State) (r : Reg) (v : Nat) :
    (s.store r v).clock_mode = s.clock_mode := rfl

@[simp] theorem store_led_blinks (s : State) (r : Reg) (v : Nat) :
    (s.store r v).led_blinks = s.led_blinks := rfl

@[simp] theorem store_peek (env : Env) (s : State) (r r' : Reg) (v : Nat) :
    (s.store r v).peek env r' = s.peek env r' := rfl

@[simp] theorem log_regs (s : State) (e : Event) : (s.log e).regs = s.regs := rfl

@[simp] theorem log_nread (s : State) (e : Event) : (s.log e).nread = s.nread := rfl

@[simp] theorem log_trace (s : State) (e : Event) : (s.log e).trace = s.trace ++ [e] := rfl

@[simp] theorem log_clock_mode (s : State) (e : Event) :
    (s.log e).clock_mode = s.clock_mode := rfl

@[simp] theorem log_led_blinks (s : State) (e : Event) :
    (s.log e).led_blinks = s.led_blinks := rfl

@[simp] theorem log_peek (env : Env) (s : State) (e : Event) (r : Reg) :
    (s.log e).peek env r = s.peek env r := rfl

@[simp] theorem wait_regs (s : State) (n : Nat) : (s.wait n).regs = s.regs := rfl

@[simp] theorem wait_nread (s : State) (n : Nat) : (s.wait n).nread = s.nread := rfl

@[simp] theorem wait_trace (s : State) (n : Nat) :
    (s.wait n).trace = s.trace ++ [Event.delay n] := rfl

@[simp] theorem wait_clock_mode (s : State) (n : Nat) :
    (s.wait n).clock_mode = s.clock_mode := rfl

@[simp] theorem wait_led_blinks (s : State) (n : Nat) :
    (s.wait n).led_blinks = s.led_blinks := rfl

@[simp] theorem wait_peek (env : Env) (s : State) (n : Nat) (r : Reg) :
    (s.wait n).peek env r = s.peek env r := rfl

@[simp] theorem input_regs (env : Env) (s : State) (r : Reg) :
    (s.input env r).regs = s.regs := rfl

@[simp] theorem input_nread_same (env : Env) (s : State) (r : Reg) :
    (s.input env r).nread r = s.nread r + 1 := by
  simp [State.input]

theorem input_nread_ne (env : Env) (s : State) (r r' : Reg) (h : r' ≠ r) :
    (s.input env r).nread r' = s.nread r' := by
  simp [State.input, h]

@[simp] theorem input_trace (env : Env) (s : State) (r : Reg) :
    (s.input env r).trace = s.trace ++ [Event.read r (s.peek env r)] := rfl

@[simp] theorem input_clock_mode (env : Env) (s : State) (r : Reg) :
    (s.input env r).clock_mode = s.clock_mode := rfl

@[simp] theorem input_led_blinks (env : Env) (s : State) (r : Reg) :
    (s.input env r).led_blinks = s.led_blinks := rfl

theorem input_peek_ne (env : Env) (s : State) (r r' : Reg) (h : r' ≠ r) :
    (s.input env r).peek env r' = s.peek env r' := by
  simp [State.peek, State.input, h]

@[simp] theorem set_clock_mode_regs (s : State) (v : Int) :
    (s.set_clock_mode v).regs = s.regs := rfl

@[simp] theorem set_clock_mode_nread (s : State) (v : Int) :
    (s.set_clock_mode v).nread = s.nread := rfl

@[simp] theorem set_clock_mode_trace (s : State) (v : Int) :
    (s.set_clock_mode v).trace = s.trace := rfl

@[simp] theorem set_clock_mode_clock_mode (s : State) (v : Int) :
    (s.set_clock_mode v).clock_mode = v := rfl

@[simp] theorem set_clock_mode_led_blinks (s : State) (v : Int) :
    (s.set_clock_mode v).led_blinks = s.led_blinks := rfl

@[simp] theorem set_led_blinks_regs (s : State) (v : Int) :
    (s.set_led_blinks v).regs = s.regs := rfl

@[simp] theorem set_led_blinks_nread (s : State) (v : Int) :
    (s.set_led_blinks v).nread = s.nread := rfl

@[simp] theorem set_led_blinks_trace (s : State) (v : Int) :
    (s.set_led_blinks v).trace = s.trace := rfl

@[simp] theorem set_led_blinks_clock_mode (s : State) (v : Int) :
    (s.set_led_blinks v).clock_mode = s.clock_mode := rfl

@[simp] theorem set_led_blinks_led_blinks (s : State) (v : Int) :
    (s.set_led_blinks v).led_blinks = v := rfl

@[simp] theorem load_eq (s : State) (r : Reg) : s.load r = s.regs r := rfl

/-! ## The LED routines -/

theorem blink_once_eq (s : State) (h : s.regs .P1OUT < 2 ^ 8) :
    blink_once s = { s with trace := s.trace ++ blink_events (s.regs .P1OUT) 1 } := by
  have hreg : (blink_once s).regs = s.regs := by
    funext r
    by_cases hr : r = .P1OUT
    · subst hr
      simp only [blink_once, store_regs_same, wait_regs, load_eq, width]
      exact toggle_twice _ _ h (by decide)
    · simp [blink_once, store_regs_ne _ _ _ _ hr]
  have htr : (blink_once s).trace = s.trace ++ blink_events (s.regs .P1OUT) 1 := by
    simp only [blink_once, store_trace, wait_trace, load_eq, store_regs_same, wait_regs, width,
      blink_events, List.append_assoc, List.singleton_append, List.cons_append, List.nil_append,
      List.append_nil]
    rw [toggle_twice _ _ h (by decide), Nat.mod_eq_of_lt (xor_lt_byte _ _ h (by decide))]
  cases hs : blink_once s with
  | mk regs nread trace cm lb =>
    rw [hs] at hreg htr
    simp only at hreg htr
    have h1 : nread = s.nread := by
      have : (blink_once s).nread = s.nread := rfl
      rw [hs] at this; exact this
    have h2 : cm = s.clock_mode := by
      have : (blink_once s).clock_mode = s.clock_mode := rfl
      rw [hs] at this; exact this
    have h3 : lb = s.led_blinks := by
      have : (blink_once s).led_blinks = s.led_blinks := rfl
      rw [hs] at this; exact this
    subst hreg htr h1 h2 h3
    rfl

theorem state_ext (s t : State) (h1 : s.regs = t.regs) (h2 : s.nread = t.nread)
    (h3 : s.trace = t.trace) (h4 : s.clock_mode = t.clock_mode)
    (h5 : s.led_blinks = t.led_blinks) : s = t := by
  cases s; cases t; simp only at h1 h2 h3 h4 h5; subst h1 h2 h3 h4 h5; rfl

theorem blink_events_append (x : Nat) (i j : Nat) :
    blink_events x (i + j) = blink_events x i ++ blink_events x j := by
  induction i with
  | zero => simp [blink_events]
  | succ i ih =>
    rw [Nat.add_right_comm]
    simp only [blink_events, ih, List.append_assoc]

theorem blink_led_loop_eq (i : Nat) (s : State) (h : s.regs .P1OUT < 2 ^ 8) :
    blink_led_loop i s = { s with trace := s.trace ++ blink_events (s.regs .P1OUT) i } := by
  induction i generalizing s with
  | zero => simp [blink_led_loop, blink_events]
  | succ i ih =>
    have ih2 := ih { s with trace := s.trace ++ blink_events (s.regs .P1OUT) 1 } h
    rw [blink_led_loop, blink_once_eq s h, ih2, Nat.add_comm i 1, blink_events_append]
    simp only [List.append_assoc]

theorem blink_led_eq (n : Int) (s : State) (h : s.regs .P1OUT < 2 ^ 8) :
    blink_led n s =
      { s with trace := s.trace ++ Event.call_blink_led n ::
          blink_events (s.regs .P1OUT) n.toNat } := by
  have h2 := blink_led_loop_eq n.toNat (s.log (Event.call_blink_led n)) h
  rw [blink_led, h2]
  simp

theorem signal_eq (s : State) (h : s.regs .P6OUT < 2 ^ 8) :
    signal_clock_change_success s =
      { s with trace := s.trace ++ signal_events (s.regs .P6OUT) } := by
  apply state_ext
  · funext r
    by_cases hr : r = .P6OUT
    · subst hr
      simp only [signal_clock_change_success, store_regs_same, wait_regs, log_regs, load_eq, width]
      exact toggle_twice _ _ h (by decide)
    · simp [signal_clock_change_success, store_regs_ne _ _ _ _ hr]
  · rfl
  · simp only [signal_clock_change_success, store_trace, wait_trace, log_trace, load_eq,
      store_regs_same, wait_regs, log_regs, width, signal_events, List.append_assoc,
      List.singleton_append, List.cons_append, List.nil_append]
    rw [toggle_twice _ _ h (by decide), Nat.mod_eq_of_lt (xor_lt_byte _ _ h (by decide))]
  · rfl
  · rfl

theorem blink_events_mem (x : Nat) (i : Nat) (e : Event) (he : e ∈ blink_events x i) :
    e = .write .P1OUT (x ^^^ LED) ∨ e = .write .P1OUT x ∨ e = .delay DELAY := by
  induction i with
  | zero => simp [blink_events] at he
  | succ i ih =>
    simp only [blink_events, List.cons_append, List.nil_append, List.mem_cons] at he
    rcases he with h | h | h | h | h
    · exact Or.inl h
    · exact Or.inr (Or.inr h)
    · exact Or.inr (Or.inl h)
    · exact Or.inr (Or.inr h)
    · exact ih h

/-! ## `configure_pins` frame -/

theorem configure_pins_regs (s : State) (r : Reg)
    (h : r ≠ .P1DIR ∧ r ≠ .P1OUT ∧ r ≠ .P6DIR ∧ r ≠ .P6OUT ∧ r ≠ .P2REN ∧ r ≠ .P2OUT ∧
      r ≠ .P4REN ∧ r ≠ .P4OUT) :
    (configure_pins s).regs r = s.regs r := by
  obtain ⟨h1, h2, h3, h4, h5, h6, h7, h8⟩ := h
  simp [configure_pins, CLR_BIT, State.store, h1, h2, h3, h4, h5, h6, h7, h8]

theorem configure_pins_leds_off (s : State) :
    (configure_pins s).regs .P1OUT &&& LED = 0 ∧
    (configure_pins s).regs .P6OUT &&& LED1 = 0 := by
  simp only [configure_pins, CLR_BIT, State.store, State.load, State.log, width]
  simp only [reduceCtorEq, if_true, if_false]
  exact ⟨clr_mask_and _ _, clr_mask_and _ _⟩

theorem configure_pins_byte (s : State) :
    (configure_pins s).regs .P1OUT < 2 ^ 8 ∧ (configure_pins s).regs .P6OUT < 2 ^ 8 := by
  simp only [configure_pins, CLR_BIT, State.store, State.load, State.log, width]
  simp only [reduceCtorEq, if_true, if_false]
  exact ⟨Nat.mod_lt _ (by norm_num), Nat.mod_lt _ (by norm_num)⟩

theorem configure_pins_trace (s : State) :
    ∃ evs, (configure_pins s).trace = s.trace ++ Event.call_configure_pins :: evs ∧
      ∀ e ∈ evs, ∃ r v, e = Event.write r v := by
  simp only [configure_pins, CLR_BIT, store_trace, log_trace, List.append_assoc,
    List.singleton_append, List.cons_append, List.nil_append]
  refine ⟨_, rfl, ?_⟩
  intro e he
  simp only [List.mem_cons, List.mem_singleton, List.mem_nil_iff, or_false] at he
  rcases he with h | h | h | h | h | h | h | h <;> exact ⟨_, _, h⟩

/-! ## Steps of `set_clock_system` -/

theorem ClockStep.trans {s t u : State} (h1 : ClockStep s t) (h2 : ClockStep t u) :
    ClockStep s u := by
  obtain ⟨a1, a2, a3, a4, e1, a5, a6⟩ := h1
  obtain ⟨b1, b2, b3, b4, e2, b5, b6⟩ := h2
  refine ⟨b1.trans a1, b2.trans a2, fun r hr => (b3 r hr).trans (a3 r hr),
    fun r hr hr' => (b4 r hr hr').trans (a4 r hr hr'), e1 ++ e2, ?_, ?_⟩
  · rw [b5, a5, List.append_assoc]
  · intro e he
    rcases List.mem_append.mp he with h | h
    · exact a6 e h
    · exact b6 e h

theorem ClockStep.store (s : State) (r : Reg) (v : Nat) (hr : clock_reg r = true) :
    ClockStep s (s.store r v) := by
  refine ⟨rfl, rfl, ?_, fun _ _ _ => rfl, [Event.write r (v % 2 ^ width r)], rfl, ?_⟩
  · intro r' hr'
    apply store_regs_ne
    rintro rfl
    rw [hr] at hr'
    exact Bool.noConfusion hr'
  · intro e he
    rw [List.mem_singleton] at he
    subst he
    exact hr

theorem ClockStep.input (env : Env) (s : State) (r : Reg) (hr : r = .SFRIFG1 ∨ r = .CSCTL7) :
    ClockStep s (s.input env r) := by
  refine ⟨rfl, rfl, fun _ _ => rfl, ?_, [Event.read r (s.peek env r)], rfl, ?_⟩
  · intro r' h1 h2
    apply input_nread_ne
    rcases hr with rfl | rfl
    · exact h1
    · exact h2
  · intro e he
    rw [List.mem_singleton] at he
    subst he
    simp [clock_event, hr]

theorem ClockStep.wait3 (s : State) : ClockStep s (s.wait 3) :=
  ⟨rfl, rfl, fun _ _ => rfl, fun _ _ _ => rfl, [Event.delay 3], rfl, by simp [clock_event]⟩

theorem fault_clear_body_step (hdr : Header) (env : Env) (s : State) :
    ClockStep s (fault_clear_body hdr env s) := by
  unfold fault_clear_body
  exact (((ClockStep.input env s .CSCTL7 (Or.inr rfl)).trans
    (ClockStep.store _ .CSCTL7 _ rfl)).trans
    (ClockStep.input env _ .SFRIFG1 (Or.inl rfl))).trans (ClockStep.store _ .SFRIFG1 _ rfl)

theorem fault_clear_loop_step (hdr : Header) (env : Env) (fuel : Nat) (s s' : State)
    (h : fault_clear_loop hdr env fuel s = some s') : ClockStep s s' := by
  induction fuel generalizing s with
  | zero => simp [fault_clear_loop] at h
  | succ fuel ih =>
    have hpass : ClockStep s ((fault_clear_body hdr env s).input env .SFRIFG1) :=
      (fault_clear_body_step hdr env s).trans (ClockStep.input env _ .SFRIFG1 (Or.inl rfl))
    simp only [fault_clear_loop] at h
    split at h
    · exact hpass.trans (ih _ h)
    · cases h
      exact hpass

theorem fll_wait_loop_step (hdr : Header) (env : Env) (fuel : Nat) (s s' : State)
    (h : fll_wait_loop hdr env fuel s = some s') : ClockStep s s' ∧ s'.regs = s.regs := by
  induction fuel generalizing s with
  | zero => simp [fll_wait_loop] at h
  | succ fuel ih =>
    simp only [fll_wait_loop] at h
    split at h
    · obtain ⟨h1, h2⟩ := ih _ h
      exact ⟨(ClockStep.input env s .CSCTL7 (Or.inr rfl)).trans h1, h2⟩
    · cases h
      exact ⟨ClockStep.input env s .CSCTL7 (Or.inr rfl), rfl⟩

theorem clock_prepare_step (hdr : Header) (mode : Int) (s : State) :
    ClockStep (s.log (Event.call_set_clock_system mode)) (clock_prepare hdr mode s) := by
  unfold clock_prepare
  exact (ClockStep.store _ .FRCTL0 _ rfl).trans (ClockStep.store _ .P2SEL1 _ rfl)

theorem clock_tune_step (hdr : Header) (mode : Int) (s : State) :
    ClockStep s (clock_tune hdr mode s) := by
  unfold clock_tune
  exact ((((((ClockStep.store _ .SR _ rfl).trans (ClockStep.store _ .CSCTL3 _ rfl)).trans
    (ClockStep.store _ .CSCTL0 _ rfl)).trans (ClockStep.store _ .CSCTL1 _ rfl)).trans
    (ClockStep.store _ .CSCTL2 _ rfl)).trans (ClockStep.wait3 _)).trans
    (ClockStep.store _ .SR _ rfl)

theorem clock_tune_regs (hdr : Header) (mode : Int) (s : State) :
    (clock_tune hdr mode s).regs .CSCTL1 =
      (if mode ≠ 0 then hdr.DCORSEL_7 else hdr.DCORSEL_3) % 2 ^ 16 ∧
    (clock_tune hdr mode s).regs .CSCTL2 =
      (hdr.FLLD_0 + (if mode ≠ 0 then 731 else 244)) % 2 ^ 16 := by
  simp [clock_tune, State.store, State.wait, State.log, width]

theorem clock_select_step (hdr : Header) (s : State) : ClockStep s (clock_select hdr s) :=
  ClockStep.store _ .CSCTL4 _ rfl

theorem set_clock_system_some (hdr : Header) (env : Env) (fuel : Nat) (mode : Int)
    (s s' : State) (h : set_clock_system hdr env fuel mode s = some s') :
    ∃ s1 s2, fault_clear_loop hdr env fuel (clock_prepare hdr mode s) = some s1 ∧
      fll_wait_loop hdr env fuel (clock_tune hdr mode s1) = some s2 ∧
      s' = clock_select hdr s2 := by
  unfold set_clock_system at h
  cases h1 : fault_clear_loop hdr env fuel (clock_prepare hdr mode s) with
  | none => simp [h1] at h
  | some s1 =>
    cases h2 : fll_wait_loop hdr env fuel (clock_tune hdr mode s1) with
    | none => simp [h1, h2] at h
    | some s2 =>
      simp [h1, h2] at h
      exact ⟨s1, s2, rfl, h2, h.symm⟩

theorem set_clock_system_spec (hdr : Header) (env : Env) (fuel : Nat) (mode : Int)
    (s s' : State) (h : set_clock_system hdr env fuel mode s = some s') :
    ClockStep (s.log (Event.call_set_clock_system mode)) s' ∧
    s'.regs .CSCTL1 = (if mode ≠ 0 then hdr.DCORSEL_7 else hdr.DCORSEL_3) % 2 ^ 16 ∧
    s'.regs .CSCTL2 = (hdr.FLLD_0 + (if mode ≠ 0 then 731 else 244)) % 2 ^ 16 := by
  obtain ⟨s1, s2, h1, h2, rfl⟩ := set_clock_system_some hdr env fuel mode s s' h
  obtain ⟨f1, f2⟩ := fll_wait_loop_step hdr env fuel _ _ h2
  obtain ⟨t1, t2⟩ := clock_tune_regs hdr mode s1
  refine ⟨?_, ?_, ?_⟩
  · exact ((((clock_prepare_step hdr mode s).trans
      (fault_clear_loop_step hdr env fuel _ _ h1)).trans
      (clock_tune_step hdr mode s1)).trans f1).trans (clock_select_step hdr s2)
  · rw [← t1, ← f2]
    exact store_regs_ne _ _ _ _ (by decide)
  · rw [← t2, ← f2]
    exact store_regs_ne _ _ _ _ (by decide)

/-- C3: when `set_clock_system(mode)` returns, `CSCTL2` holds `FLLD_0 + 244` and
`CSCTL1` holds `DCORSEL_3` if `mode = 0`, and `CSCTL2` holds `FLLD_0 + 731` and
`CSCTL1` holds `DCORSEL_7` for `mode = 1` and every other non-zero mode; a call
with mode 0 and a call with mode 1 leave different multipliers and different
range settings. The header constants are assumed to fit the 16-bit registers
and `DCORSEL_3`, `DCORSEL_7` to be different values. -/
theorem set_clock_system_mode_mapping (hdr : Header) (env : Env) (fuel : Nat) (mode : Int)
    (s s' : State) (hfit : hdr.Fits) (hsel : hdr.DCORSEL_3 ≠ hdr.DCORSEL_7)
    (hret : set_clock_system hdr env fuel mode s = some s') :
    (mode = 0 → s'.regs .CSCTL2 = hdr.FLLD_0 + 244 ∧ s'.regs .CSCTL1 = hdr.DCORSEL_3) ∧
    (mode ≠ 0 → s'.regs .CSCTL2 = hdr.FLLD_0 + 731 ∧ s'.regs .CSCTL1 = hdr.DCORSEL_7) ∧
    (∀ env2 fuel2 mode2 t t', set_clock_system hdr env2 fuel2 mode2 t = some t' →
      ((mode = 0 ∧ mode2 = 1) ∨ (mode = 1 ∧ mode2 = 0)) →
      s'.regs .CSCTL2 ≠ t'.regs .CSCTL2 ∧ s'.regs .CSCTL1 ≠ t'.regs .CSCTL1) := by
  obtain ⟨f3, f7, fm⟩ := hfit
  have key : ∀ (e : Env) (f : Nat) (m : Int) (a b : State),
      set_clock_system hdr e f m a = some b →
      b.regs .CSCTL2 = hdr.FLLD_0 + (if m ≠ 0 then 731 else 244) ∧
      b.regs .CSCTL1 = (if m ≠ 0 then hdr.DCORSEL_7 else hdr.DCORSEL_3) := by
    intro e f m a b hb
    obtain ⟨_, h1, h2⟩ := set_clock_system_spec hdr e f m a b hb
    rw [h1, h2]
    constructor
    · apply Nat.mod_eq_of_lt
      split <;> omega
    · apply Nat.mod_eq_of_lt
      split <;> assumption
  obtain ⟨k2, k1⟩ := key env fuel mode s s' hret
  refine ⟨?_, ?_, ?_⟩
  · intro hm
    rw [k2, k1]
    simp [hm]
  · intro hm
    rw [k2, k1]
    simp [hm]
  · intro env2 fuel2 mode2 t t' ht hmodes
    obtain ⟨j2, j1⟩ := key env2 fuel2 mode2 t t' ht
    rw [k2, k1, j2, j1]
    rcases hmodes with ⟨rfl, rfl⟩ | ⟨rfl, rfl⟩
    · simp
      exact hsel
    · simp
      exact fun h => hsel h.symm

theorem set_clock_system_mode_mapping_witness :
    msp430fr2355.Fits ∧ msp430fr2355.DCORSEL_3 ≠ msp430fr2355.DCORSEL_7 ∧
    ∃ s', set_clock_system msp430fr2355 env_slow 5 0 power_on = some s' ∧
      s'.regs .CSCTL2 = msp430fr2355.FLLD_0 + 244 ∧
      s'.regs .CSCTL1 = msp430fr2355.DCORSEL_3 :=
  ⟨by decide, by decide, _, (Option.some_get (by decide)).symm,
    (set_clock_system_mode_mapping msp430fr2355 env_slow 5 0 power_on _ (by decide) (by decide)
      (Option.some_get (by decide)).symm).1 rfl⟩

/-! ## The two busy-wait loops of `set_clock_system` -/

theorem fault_body_peek (hdr : Header) (env : Env) (s : State) :
    (fault_clear_body hdr env s).peek env .SFRIFG1 = env .SFRIFG1 (s.nread .SFRIFG1 + 1) := by
  simp [fault_clear_body, State.peek, State.input, State.store]

theorem fault_pass_nread_sfr (hdr : Header) (env : Env) (s : State) :
    ((fault_clear_body hdr env s).input env .SFRIFG1).nread .SFRIFG1 =
      s.nread .SFRIFG1 + 2 := by
  simp [fault_clear_body, State.input, State.store]

theorem fault_pass_nread_cs7 (hdr : Header) (env : Env) (s : State) :
    ((fault_clear_body hdr env s).input env .SFRIFG1).nread .CSCTL7 =
      s.nread .CSCTL7 + 1 := by
  simp [fault_clear_body, State.input, State.store]

theorem fault_pass_count (hdr : Header) (env : Env) (s : State) :
    ((fault_clear_body hdr env s).input env .SFRIFG1).trace.countP fault_clear_write =
      s.trace.countP fault_clear_write + 1 := by
  simp [fault_clear_body, List.countP_cons, fault_clear_write]

theorem ofifg_test_clear_shift (hdr : Header) (env : Env) (s : State) (k : Nat) :
    ofifg_test_clear hdr env ((fault_clear_body hdr env s).input env .SFRIFG1) k ↔
      ofifg_test_clear hdr env s (k + 1) := by
  unfold ofifg_test_clear
  rw [fault_pass_nread_sfr]
  have : s.nread .SFRIFG1 + 2 + 2 * k + 1 = s.nread .SFRIFG1 + 2 * (k + 1) + 1 := by ring
  rw [this]

theorem ofifg_test_clear_zero (hdr : Header) (env : Env) (s : State) :
    ofifg_test_clear hdr env s 0 ↔
      ¬ ((fault_clear_body hdr env s).peek env .SFRIFG1 &&& hdr.OFIFG ≠ 0) := by
  unfold ofifg_test_clear
  rw [fault_body_peek]
  simp

theorem first_clear_unique (hdr : Header) (env : Env) (s : State) (K K' : Nat)
    (h : first_clear hdr env s K) (h' : first_clear hdr env s K') : K = K' := by
  rcases Nat.lt_trichotomy K K' with hlt | heq | hgt
  · exact absurd h.1 (h'.2 K hlt)
  · exact heq
  · exact absurd h'.1 (h.2 K' hgt)

theorem fault_clear_loop_sound (hdr : Header) (env : Env) (fuel : Nat) (s s' : State)
    (h : fault_clear_loop hdr env fuel s = some s') :
    ∃ K, K < fuel ∧ first_clear hdr env s K ∧
      s'.nread .CSCTL7 = s.nread .CSCTL7 + (K + 1) ∧
      s'.trace.countP fault_clear_write = s.trace.countP fault_clear_write + (K + 1) := by
  induction fuel generalizing s with
  | zero => simp [fault_clear_loop] at h
  | succ fuel ih =>
    simp only [fault_clear_loop] at h
    split at h
    · rename_i hset
      obtain ⟨K, hK, ⟨hc, hfirst⟩, hn, hcount⟩ := ih _ h
      refine ⟨K + 1, by omega, ⟨(ofifg_test_clear_shift hdr env s K).mp hc, ?_⟩, ?_, ?_⟩
      · intro k hk
        cases k with
        | zero => exact fun h0 => (ofifg_test_clear_zero hdr env s).mp h0 hset
        | succ k =>
          exact fun hk1 => hfirst k (by omega) ((ofifg_test_clear_shift hdr env s k).mpr hk1)
      · rw [hn, fault_pass_nread_cs7]; ring
      · rw [hcount, fault_pass_count]; ring
    · rename_i hclr
      cases h
      refine ⟨0, by omega, ⟨(ofifg_test_clear_zero hdr env s).mpr hclr, ?_⟩, ?_, ?_⟩
      · intro k hk; omega
      · rw [fault_pass_nread_cs7]
      · rw [fault_pass_count]

theorem fault_clear_loop_complete (hdr : Header) (env : Env) (K : Nat) (fuel : Nat)
    (s : State) (hK : ofifg_test_clear hdr env s K) (hf : K < fuel) :
    ∃ s', fault_clear_loop hdr env fuel s = some s' := by
  induction K generalizing s fuel with
  | zero =>
    obtain ⟨fuel, rfl⟩ : ∃ f, fuel = f + 1 := ⟨fuel - 1, by omega⟩
    simp only [fault_clear_loop]
    rw [if_neg ((ofifg_test_clear_zero hdr env s).mp hK)]
    exact ⟨_, rfl⟩
  | succ K ih =>
    obtain ⟨fuel, rfl⟩ : ∃ f, fuel = f + 1 := ⟨fuel - 1, by omega⟩
    simp only [fault_clear_loop]
    split
    · exact ih fuel _ ((ofifg_test_clear_shift hdr env s K).mpr hK) (by omega)
    · exact ⟨_, rfl⟩

theorem fll_read_locked_shift (hdr : Header) (env : Env) (s : State) (i : Nat) :
    fll_read_locked hdr env (s.input env .CSCTL7) i ↔ fll_read_locked hdr env s (i + 1) := by
  unfold fll_read_locked
  rw [input_nread_same]
  have : s.nread .CSCTL7 + 1 + i = s.nread .CSCTL7 + (i + 1) := by ring
  rw [this]

theorem fll_read_locked_zero (hdr : Header) (env : Env) (s : State) :
    fll_read_locked hdr env s 0 ↔
      ¬ (s.peek env .CSCTL7 &&& (hdr.FLLUNLOCK0 ||| hdr.FLLUNLOCK1) ≠ 0) := by
  unfold fll_read_locked State.peek
  simp

theorem fll_wait_loop_sound (hdr : Header) (env : Env) (fuel : Nat) (s s' : State)
    (h : fll_wait_loop hdr env fuel s = some s') :
    ∃ j, j < fuel ∧ first_locked hdr env s j ∧
      s'.trace.countP fault_clear_write = s.trace.countP fault_clear_write := by
  induction fuel generalizing s with
  | zero => simp [fll_wait_loop] at h
  | succ fuel ih =>
    simp only [fll_wait_loop] at h
    split at h
    · rename_i hset
      obtain ⟨j, hj, ⟨hc, hfirst⟩, hcount⟩ := ih _ h
      refine ⟨j + 1, by omega, ⟨(fll_read_locked_shift hdr env s j).mp hc, ?_⟩, ?_⟩
      · intro i hi
        cases i with
        | zero => exact fun h0 => (fll_read_locked_zero hdr env s).mp h0 hset
        | succ i =>
          exact fun hi1 => hfirst i (by omega) ((fll_read_locked_shift hdr env s i).mpr hi1)
      · rw [hcount]; simp [fault_clear_write]
    · rename_i hclr
      cases h
      refine ⟨0, by omega, ⟨(fll_read_locked_zero hdr env s).mpr hclr, ?_⟩, ?_⟩
      · intro i hi; omega
      · simp [fault_clear_write]

theorem fll_wait_loop_complete (hdr : Header) (env : Env) (j : Nat) (fuel : Nat)
    (s : State) (hj : fll_read_locked hdr env s j) (hf : j < fuel) :
    ∃ s', fll_wait_loop hdr env fuel s = some s' := by
  induction j generalizing s fuel with
  | zero =>
    obtain ⟨fuel, rfl⟩ : ∃ f, fuel = f + 1 := ⟨fuel - 1, by omega⟩
    simp only [fll_wait_loop]
    rw [if_neg ((fll_read_locked_zero hdr env s).mp hj)]
    exact ⟨_, rfl⟩
  | succ j ih =>
    obtain ⟨fuel, rfl⟩ : ∃ f, fuel = f + 1 := ⟨fuel - 1, by omega⟩
    simp only [fll_wait_loop]
    split
    · exact ih fuel _ ((fll_read_locked_shift hdr env s j).mpr hj) (by omega)
    · exact ⟨_, rfl⟩

theorem clock_prepare_count (hdr : Header) (mode : Int) (s : State) :
    (clock_prepare hdr mode s).trace.countP fault_clear_write =
      s.trace.countP fault_clear_write := by
  simp [clock_prepare, List.countP_cons, fault_clear_write]

theorem clock_tune_count (hdr : Header) (mode : Int) (s : State) :
    (clock_tune hdr mode s).trace.countP fault_clear_write =
      s.trace.countP fault_clear_write := by
  simp [clock_tune, List.countP_cons, fault_clear_write]

theorem clock_select_count (hdr : Header) (s : State) :
    (clock_select hdr s).trace.countP fault_clear_write =
      s.trace.countP fault_clear_write := by
  simp [clock_select, List.countP_cons, fault_clear_write]

theorem set_clock_system_sound (hdr : Header) (env : Env) (fuel : Nat) (mode : Int)
    (s s' : State) (h : set_clock_system hdr env fuel mode s = some s') :
    ∃ K, first_clear hdr env s K ∧ (∃ j, fll_read_locked hdr env s (K + 1 + j)) ∧
      s'.trace.countP fault_clear_write = s.trace.countP fault_clear_write + (K + 1) := by
  obtain ⟨s1, s2, h1, h2, rfl⟩ := set_clock_system_some hdr env fuel mode s s' h
  obtain ⟨K, _, hfirst, hn, hcount⟩ := fault_clear_loop_sound hdr env fuel _ _ h1
  obtain ⟨j, _, ⟨hlock, _⟩, hcount2⟩ := fll_wait_loop_sound hdr env fuel _ _ h2
  refine ⟨K, hfirst, ⟨j, ?_⟩, ?_⟩
  · have hn' : s1.nread .CSCTL7 = s.nread .CSCTL7 + (K + 1) := hn
    have hl : env .CSCTL7 (s1.nread .CSCTL7 + j) &&&
        (hdr.FLLUNLOCK0 ||| hdr.FLLUNLOCK1) = 0 := hlock
    unfold fll_read_locked
    rw [hn', Nat.add_assoc] at hl
    exact hl
  · rw [clock_select_count, hcount2, clock_tune_count, hcount, clock_prepare_count]

theorem set_clock_system_complete (hdr : Header) (env : Env) (mode : Int) (s : State)
    (K j : Nat) (hK : first_clear hdr env s K)
    (hj : fll_read_locked hdr env s (K + 1 + j)) :
    ∃ s', set_clock_system hdr env (K + j + 1) mode s = some s' := by
  have hK' : ofifg_test_clear hdr env (clock_prepare hdr mode s) K := hK.1
  obtain ⟨s1, h1⟩ := fault_clear_loop_complete hdr env K (K + j + 1) _ hK' (by omega)
  obtain ⟨K', _, hfirst, hn, _⟩ := fault_clear_loop_sound hdr env _ _ _ h1
  have hKK : K' = K := first_clear_unique hdr env s K' K hfirst hK
  subst hKK
  have hn' : s1.nread .CSCTL7 = s.nread .CSCTL7 + (K' + 1) := hn
  have hl : fll_read_locked hdr env (clock_tune hdr mode s1) j := by
    show env .CSCTL7 (s1.nread .CSCTL7 + j) &&& (hdr.FLLUNLOCK0 ||| hdr.FLLUNLOCK1) = 0
    rw [hn', Nat.add_assoc]
    exact hj
  obtain ⟨s2, h2⟩ := fll_wait_loop_complete hdr env j (K' + j + 1) _ hl (by omega)
  exact ⟨clock_select hdr s2, by simp [set_clock_system, h1, h2]⟩

/-- C8: with the reads of `SFRIFG1` and `CSCTL7` supplied by `env`, the call
`set_clock_system(mode)` returns if and only if some test read of `SFRIFG1` in
the fault-clear loop shows `OFIFG` clear and some read of `CSCTL7` made after
that loop shows `FLLUNLOCK0` and `FLLUNLOCK1` clear; when it returns, the
fault-clear body has run once per test read up to and including the first clear
one; and when either flag reads set forever no amount of fuel makes the call
return. -/
theorem set_clock_system_blocking (hdr : Header) (env : Env) (mode : Int) (s : State) :
    (Returns hdr env mode s ↔
      ∃ K, first_clear hdr env s K ∧ ∃ j, fll_read_locked hdr env s (K + 1 + j)) ∧
    (∀ fuel s', set_clock_system hdr env fuel mode s = some s' →
      ∃ K, first_clear hdr env s K ∧
        s'.trace.countP fault_clear_write = s.trace.countP fault_clear_write + (K + 1)) ∧
    ((∀ k, ¬ ofifg_test_clear hdr env s k) →
      ∀ fuel, set_clock_system hdr env fuel mode s = none) ∧
    ((∀ i, ¬ fll_read_locked hdr env s i) →
      ∀ fuel, set_clock_system hdr env fuel mode s = none) := by
  refine ⟨⟨?_, ?_⟩, ?_, ?_, ?_⟩
  · rintro ⟨fuel, s', h⟩
    obtain ⟨K, hK, hj, _⟩ := set_clock_system_sound hdr env fuel mode s s' h
    exact ⟨K, hK, hj⟩
  · rintro ⟨K, hK, j, hj⟩
    exact ⟨K + j + 1, set_clock_system_complete hdr env mode s K j hK hj⟩
  · intro fuel s' h
    obtain ⟨K, hK, _, hc⟩ := set_clock_system_sound hdr env fuel mode s s' h
    exact ⟨K, hK, hc⟩
  · intro hall fuel
    cases h : set_clock_system hdr env fuel mode s with
    | none => rfl
    | some s' =>
      obtain ⟨K, hK, _, _⟩ := set_clock_system_sound hdr env fuel mode s s' h
      exact absurd hK.1 (hall K)
  · intro hall fuel
    cases h : set_clock_system hdr env fuel mode s with
    | none => rfl
    | some s' =>
      obtain ⟨K, _, ⟨j, hj⟩, _⟩ := set_clock_system_sound hdr env fuel mode s s' h
      exact absurd hj (hall _)

theorem set_clock_system_blocking_witness :
    Returns msp430fr2355 env_slow 0 power_on ∧
    (∀ fuel, set_clock_system msp430fr2355 env_stuck fuel 0 power_on = none) :=
  ⟨(set_clock_system_blocking msp430fr2355 env_slow 0 power_on).1.mpr
      ⟨2, ⟨by unfold ofifg_test_clear; decide,
        by intro k hk; unfold ofifg_test_clear; interval_cases k <;> decide⟩,
        2, by unfold fll_read_locked; decide⟩,
    (set_clock_system_blocking msp430fr2355 env_stuck 0 power_on).2.2.1
      (fun k => by unfold ofifg_test_clear env_stuck; decide)⟩

/-! ## Facts about events of the clock system -/

theorem clock_events_count (p : Event → Bool) (evs : List Event)
    (h : ∀ e ∈ evs, clock_event e = true)
    (hp : ∀ e, clock_event e = true → p e = false) : evs.countP p = 0 := by
  rw [List.countP_eq_zero]
  intro e he
  rw [hp e (h e he)]
  exact Bool.false_ne_true

theorem clock_event_not_button1 (e : Event) (h : clock_event e = true) :
    button1_press e = false := by
  cases e with
  | read r v => cases r <;> simp_all [clock_event, button1_press]
  | _ => simp_all [clock_event, button1_press]

theorem clock_event_not_button2 (e : Event) (h : clock_event e = true) :
    button2_press e = false := by
  cases e with
  | read r v => cases r <;> simp_all [clock_event, button2_press]
  | _ => simp_all [clock_event, button2_press]

theorem clock_event_not_red (e : Event) (h : clock_event e = true) : red_write e = false := by
  cases e with
  | write r v => cases r <;> simp_all [clock_event, clock_reg, red_write]
  | _ => simp_all [clock_event, red_write]

theorem clock_event_not_green (e : Event) (h : clock_event e = true) :
    green_write e = false := by
  cases e with
  | write r v => cases r <;> simp_all [clock_event, clock_reg, green_write]
  | _ => simp_all [clock_event, green_write]

theorem clock_event_delay (e : Event) (h : clock_event e = true) (hd : is_delay e = true) :
    e = Event.delay 3 := by
  cases e <;> simp_all [clock_event, is_delay]

/-! ## The branches of the main loop -/

theorem button2_branch_some (hdr : Header) (env : Env) (fuel : Nat) (s s2 : State)
    (h : button2_branch hdr env fuel s = some s2) :
    ∃ sc, set_clock_system hdr env fuel (if s.clock_mode = 0 then 1 else 0)
        (s.set_clock_mode (if s.clock_mode = 0 then 1 else 0)) = some sc ∧
      s2 = (signal_clock_change_success sc).wait (DELAY / 2) := by
  unfold button2_branch at h
  cases hsc : set_clock_system hdr env fuel (if s.clock_mode = 0 then 1 else 0)
      (s.set_clock_mode (if s.clock_mode = 0 then 1 else 0)) with
  | none => simp [hsc] at h
  | some sc =>
    simp [hsc] at h
    exact ⟨sc, rfl, h.symm⟩

theorem button2_branch_spec (hdr : Header) (env : Env) (fuel : Nat) (s s2 : State)
    (h6 : s.regs .P6OUT < 2 ^ 8) (h : button2_branch hdr env fuel s = some s2) :
    s2.clock_mode = (if s.clock_mode = 0 then 1 else 0) ∧
    s2.led_blinks = s.led_blinks ∧
    (∀ r, clock_reg r = false → s2.regs r = s.regs r) ∧
    (∀ r, r ≠ .SFRIFG1 → r ≠ .CSCTL7 → s2.nread r = s.nread r) ∧
    s2.regs .CSCTL1 =
      (if (if s.clock_mode = 0 then (1 : Int) else 0) ≠ 0 then hdr.DCORSEL_7
        else hdr.DCORSEL_3) % 2 ^ 16 ∧
    s2.regs .CSCTL2 =
      (hdr.FLLD_0 + (if (if s.clock_mode = 0 then (1 : Int) else 0) ≠ 0 then 731
        else 244)) % 2 ^ 16 ∧
    ∃ evs, (∀ e ∈ evs, clock_event e = true) ∧
      s2.trace = s.trace ++ Event.call_set_clock_system (if s.clock_mode = 0 then 1 else 0) ::
        evs ++ signal_events (s.regs .P6OUT) ++ [Event.delay (DELAY / 2)] := by
  obtain ⟨sc, hsc, rfl⟩ := button2_branch_some hdr env fuel s s2 h
  obtain ⟨⟨c1, c2, c3, c4, evs, c5, c6⟩, r1, r2⟩ := set_clock_system_spec hdr env fuel _ _ _ hsc
  have hP6 : sc.regs .P6OUT = s.regs .P6OUT := c3 .P6OUT rfl
  have h6' : sc.regs .P6OUT < 2 ^ 8 := by rw [hP6]; exact h6
  rw [signal_eq sc h6']
  refine ⟨c1, c2, c3, c4, r1, r2, evs, c6, ?_⟩
  simp only [wait_trace, c5, hP6, log_trace, set_clock_mode_trace, List.append_assoc,
    List.singleton_append, List.cons_append, List.nil_append]

theorem button1_check_spec (env : Env) (t : State) (h1 : t.regs .P1OUT < 2 ^ 8) :
    (button1_check env t).regs = t.regs ∧
    (button1_check env t).clock_mode = t.clock_mode ∧
    (button1_check env t).nread = (t.input env .P2IN).nread ∧
    (button1_check env t).led_blinks =
      (if TST_BIT (t.peek env .P2IN) BUTTON = 0 then (if t.led_blinks = 3 then 7 else 3)
        else t.led_blinks) ∧
    (button1_check env t).trace = t.trace ++ Event.read .P2IN (t.peek env .P2IN) ::
      (if TST_BIT (t.peek env .P2IN) BUTTON = 0 then
        Event.call_blink_led t.led_blinks :: blink_events (t.regs .P1OUT) t.led_blinks.toNat
      else []) := by
  unfold button1_check
  by_cases hp : TST_BIT (t.peek env .P2IN) BUTTON = 0
  · have hb := blink_led_eq t.led_blinks (t.input env .P2IN) h1
    simp only [hp, if_true, button1_branch]
    rw [show (t.input env .P2IN).led_blinks = t.led_blinks from rfl, hb]
    simp
  · simp only [hp, if_false]
    simp

theorem loop_body_some (hdr : Header) (env : Env) (fuel : Nat) (s s' : State)
    (h : loop_body hdr env fuel s = some s') :
    ∃ t, (if TST_BIT (s.peek env .P4IN) BUTTON1 = 0 then
        button2_branch hdr env fuel (s.input env .P4IN)
      else some (s.input env .P4IN)) = some t ∧ s' = button1_check env t := by
  unfold loop_body at h
  cases ht : (if TST_BIT (s.peek env .P4IN) BUTTON1 = 0 then
        button2_branch hdr env fuel (s.input env .P4IN)
      else some (s.input env .P4IN)) with
  | none => simp [ht] at h
  | some t =>
    simp [ht] at h
    exact ⟨t, rfl, h.symm⟩

/-- Everything one completed iteration of the main loop does, by the two button
reads `TST_BIT (P4IN) BUTTON1` and `TST_BIT (P2IN) BUTTON`. -/
theorem loop_body_spec (hdr : Header) (env : Env) (fuel : Nat) (s s' : State)
    (h1 : s.regs .P1OUT < 2 ^ 8) (h6 : s.regs .P6OUT < 2 ^ 8)
    (h : loop_body hdr env fuel s = some s') :
    s'.regs .P1OUT = s.regs .P1OUT ∧ s'.regs .P6OUT = s.regs .P6OUT ∧
    s'.clock_mode = (if TST_BIT (s.peek env .P4IN) BUTTON1 = 0 then
      (if s.clock_mode = 0 then 1 else 0) else s.clock_mode) ∧
    s'.led_blinks = (if TST_BIT (s.peek env .P2IN) BUTTON = 0 then
      (if s.led_blinks = 3 then 7 else 3) else s.led_blinks) ∧
    (if TST_BIT (s.peek env .P4IN) BUTTON1 = 0 then
      s'.regs .CSCTL1 = (if (if s.clock_mode = 0 then (1 : Int) else 0) ≠ 0 then hdr.DCORSEL_7
        else hdr.DCORSEL_3) % 2 ^ 16 ∧
      s'.regs .CSCTL2 = (hdr.FLLD_0 + (if (if s.clock_mode = 0 then (1 : Int) else 0) ≠ 0
        then 731 else 244)) % 2 ^ 16
    else s'.regs .CSCTL1 = s.regs .CSCTL1 ∧ s'.regs .CSCTL2 = s.regs .CSCTL2) ∧
    ∃ evs, (∀ e ∈ evs, clock_event e = true) ∧
      s'.trace = s.trace ++ Event.read .P4IN (s.peek env .P4IN) ::
        (if TST_BIT (s.peek env .P4IN) BUTTON1 = 0 then
          Event.call_set_clock_system (if s.clock_mode = 0 then 1 else 0) :: evs ++
            signal_events (s.regs .P6OUT) ++ [Event.delay (DELAY / 2)]
        else []) ++
        Event.read .P2IN (s.peek env .P2IN) ::
        (if TST_BIT (s.peek env .P2IN) BUTTON = 0 then
          Event.call_blink_led s.led_blinks ::
            blink_events (s.regs .P1OUT) s.led_blinks.toNat
        else []) := by
  obtain ⟨t, ht, rfl⟩ := loop_body_some hdr env fuel s s' h
  by_cases hp2 : TST_BIT (s.peek env .P4IN) BUTTON1 = 0
  · simp only [hp2, if_true] at ht ⊢
    obtain ⟨b1, b2, b3, b4, b5, b6, evs, b7, b8⟩ :=
      button2_branch_spec hdr env fuel (s.input env .P4IN) t h6 ht
    have tP1 : t.regs .P1OUT = s.regs .P1OUT := b3 .P1OUT rfl
    have tP6 : t.regs .P6OUT = s.regs .P6OUT := b3 .P6OUT rfl
    have tpeek : t.peek env .P2IN = s.peek env .P2IN := by
      unfold State.peek
      rw [b4 .P2IN (by decide) (by decide), input_nread_ne _ _ _ _ (by decide)]
    obtain ⟨c1, c2, _, c4, c5⟩ := button1_check_spec env t (by rw [tP1]; exact h1)
    refine ⟨by rw [c1, tP1], by rw [c1, tP6], by rw [c2, b1]; rfl, ?_, ⟨by rw [c1, b5]; rfl,
      by rw [c1, b6]; rfl⟩, evs, b7, ?_⟩
    · rw [c4, tpeek, b2]; rfl
    · rw [c5, tpeek, b2, tP1, b8]
      simp only [input_trace, input_regs, input_led_blinks, input_clock_mode, List.append_assoc,
        List.singleton_append, List.cons_append, List.nil_append]
  · simp only [hp2, if_false] at ht ⊢
    cases ht
    obtain ⟨c1, c2, _, c4, c5⟩ := button1_check_spec env (s.input env .P4IN) h1
    have tpeek : (s.input env .P4IN).peek env .P2IN = s.peek env .P2IN :=
      input_peek_ne env s _ _ (by decide)
    refine ⟨by rw [c1]; rfl, by rw [c1]; rfl, by rw [c2]; rfl, ?_, ⟨by rw [c1]; rfl,
      by rw [c1]; rfl⟩, [], by simp, ?_⟩
    · rw [c4, tpeek]; rfl
    · rw [c5, tpeek]
      simp only [input_trace, input_regs, input_led_blinks, List.append_assoc,
        List.singleton_append, List.nil_append]

/-! ## Initialisation and the loop invariant of `main` -/

theorem clock_event_quiet (e : Event) (h : clock_event e = true) : quiet_event e := by
  refine ⟨?_, clock_event_not_button1 e h, clock_event_not_button2 e h⟩
  cases e <;> simp_all [clock_event, blink_call]

theorem write_quiet (r : Reg) (v : Nat) : quiet_event (Event.write r v) :=
  ⟨rfl, rfl, rfl⟩

theorem quiet_events_observe (evs : List Event) (h : ∀ e ∈ evs, quiet_event e) :
    blink_calls evs = [] ∧ evs.countP button1_press = 0 ∧ evs.countP button2_press = 0 := by
  refine ⟨?_, ?_, ?_⟩
  · unfold blink_calls
    rw [List.filterMap_eq_nil_iff]
    exact fun e he => (h e he).1
  · rw [List.countP_eq_zero]
    intro e he
    rw [(h e he).2.1]
    exact Bool.false_ne_true
  · rw [List.countP_eq_zero]
    intro e he
    rw [(h e he).2.2]
    exact Bool.false_ne_true

theorem main_prologue_trace (hdr : Header) (s0 : State) :
    ∃ a b, (main_prologue hdr s0).trace =
      s0.trace ++ [Event.write .WDTCTL a, Event.write .PM5CTL0 b] := by
  simp only [main_prologue, store_trace, set_clock_mode_trace, set_led_blinks_trace,
    List.append_assoc, List.singleton_append]
  exact ⟨_, _, rfl⟩

theorem main_init_some (hdr : Header) (env : Env) (fuel : Nat) (s0 s : State)
    (h : main_init hdr env fuel s0 = some s) :
    ∃ sc, set_clock_system hdr env fuel 1 (main_prologue hdr s0) = some sc ∧
      s = configure_pins sc := by
  change (set_clock_system hdr env fuel 1 (main_prologue hdr s0)).bind
    (fun s => some (configure_pins s)) = some s at h
  cases hsc : set_clock_system hdr env fuel 1 (main_prologue hdr s0) with
  | none => simp [hsc] at h
  | some sc =>
    simp [hsc] at h
    exact ⟨sc, rfl, h.symm⟩

theorem main_init_spec (hdr : Header) (env : Env) (fuel : Nat) (s0 s : State)
    (h : main_init hdr env fuel s0 = some s) :
    RegInv hdr s ∧ s.clock_mode = 1 ∧ s.led_blinks = 3 ∧
    ∃ evs, s.trace = s0.trace ++ evs ∧ ∀ e ∈ evs, quiet_event e := by
  obtain ⟨sc, hsc, rfl⟩ := main_init_some hdr env fuel s0 s h
  obtain ⟨⟨c1, c2, _, _, evs, c5, c6⟩, r1, r2⟩ := set_clock_system_spec hdr env fuel _ _ _ hsc
  obtain ⟨p3, p4⟩ := configure_pins_leds_off sc
  obtain ⟨q1, q2⟩ := configure_pins_byte sc
  obtain ⟨evs', t1, t2⟩ := configure_pins_trace sc
  obtain ⟨a, b, t0⟩ := main_prologue_trace hdr s0
  have hm : (configure_pins sc).clock_mode = 1 := c1
  have hb : (configure_pins sc).led_blinks = 3 := c2
  refine ⟨⟨q1, q2, p3, p4, Or.inr hm, ?_, ?_⟩, hm, hb, ?_⟩
  · rw [configure_pins_regs sc .CSCTL1 (by decide), r1, hm]
  · rw [configure_pins_regs sc .CSCTL2 (by decide), r2, hm]
  · refine ⟨[Event.write .WDTCTL a, Event.write .PM5CTL0 b, Event.call_set_clock_system 1] ++
      evs ++ Event.call_configure_pins :: evs', ?_, ?_⟩
    · rw [t1, c5, log_trace, t0]
      simp only [List.append_assoc, List.singleton_append, List.cons_append, List.nil_append]
    · intro e he
      simp only [List.mem_append, List.mem_cons, List.mem_singleton, List.mem_nil_iff,
        or_false] at he
      rcases he with ((h | h | h) | h) | h | h
      · subst h; exact write_quiet _ _
      · subst h; exact write_quiet _ _
      · subst h; exact ⟨rfl, rfl, rfl⟩
      · exact clock_event_quiet e (c6 e h)
      · subst h; exact ⟨rfl, rfl, rfl⟩
      · obtain ⟨r, v, rfl⟩ := t2 e h
        exact write_quiet _ _

theorem blink_events_quiet (x i : Nat) : ∀ e ∈ blink_events x i, quiet_event e := by
  intro e he
  rcases blink_events_mem x i e he with h | h | h <;> subst h <;> exact ⟨rfl, rfl, rfl⟩

theorem signal_events_quiet (y : Nat) : ∀ e ∈ signal_events y, quiet_event e := by
  intro e he
  simp only [signal_events, List.mem_cons, List.mem_singleton, List.mem_nil_iff, or_false] at he
  rcases he with h | h | h | h <;> subst h <;> exact ⟨rfl, rfl, rfl⟩

theorem blink_calls_append (a b : List Event) :
    blink_calls (a ++ b) = blink_calls a ++ blink_calls b :=
  List.filterMap_append a b blink_call

/-- What one completed iteration adds to the observations on the trace. -/
theorem loop_body_observe (hdr : Header) (env : Env) (fuel : Nat) (s s' : State)
    (h1 : s.regs .P1OUT < 2 ^ 8) (h6 : s.regs .P6OUT < 2 ^ 8)
    (h : loop_body hdr env fuel s = some s') :
    blink_calls s'.trace = blink_calls s.trace ++
      (if TST_BIT (s.peek env .P2IN) BUTTON = 0 then [s.led_blinks] else []) ∧
    s'.trace.countP button1_press = s.trace.countP button1_press +
      (if TST_BIT (s.peek env .P2IN) BUTTON = 0 then 1 else 0) ∧
    s'.trace.countP button2_press = s.trace.countP button2_press +
      (if TST_BIT (s.peek env .P4IN) BUTTON1 = 0 then 1 else 0) := by
  obtain ⟨_, _, _, _, _, evs, hc, htr⟩ := loop_body_spec hdr env fuel s s' h1 h6 h
  obtain ⟨e1, e2, e3⟩ := quiet_events_observe evs (fun e he => clock_event_quiet e (hc e he))
  obtain ⟨g1, g2, g3⟩ := quiet_events_observe _ (signal_events_quiet (s.regs .P6OUT))
  obtain ⟨k1, k2, k3⟩ :=
    quiet_events_observe _ (blink_events_quiet (s.regs .P1OUT) s.led_blinks.toNat)
  rw [htr]
  have c1 : ∀ l, blink_calls (Event.read .P4IN (s.peek env .P4IN) :: l) = blink_calls l :=
    fun _ => rfl
  have c2 : ∀ l, blink_calls (Event.read .P2IN (s.peek env .P2IN) :: l) = blink_calls l :=
    fun _ => rfl
  have c3 : ∀ n l, blink_calls (Event.call_blink_led n :: l) = n :: blink_calls l :=
    fun _ _ => rfl
  have c4 : ∀ n l, blink_calls (Event.call_set_clock_system n :: l) = blink_calls l :=
    fun _ _ => rfl
  have c5 : ∀ n, blink_calls [Event.delay n] = [] := fun _ => rfl
  have c6 : blink_calls [] = [] := rfl
  by_cases hp2 : TST_BIT (s.peek env .P4IN) BUTTON1 = 0 <;>
  by_cases hp1 : TST_BIT (s.peek env .P2IN) BUTTON = 0 <;>
  simp only [hp1, hp2, if_true, if_false, blink_calls_append, List.countP_append,
    List.countP_cons, List.countP_nil, List.cons_append, List.nil_append, List.append_nil,
    c1, c2, c3, c4, c5, c6, e1, e2, e3, g1, g2, g3, k1, k2, k3, button1_press, button2_press,
    decide_True, decide_False, Nat.add_zero, Nat.zero_add, reduceCtorEq, Bool.false_eq_true] <;>
  simp

theorem alternating_succ (N : Nat) :
    alternating (N + 1) = alternating N ++ [if N % 2 = 0 then 3 else 7] := by
  simp [alternating, List.range_succ]

theorem alternating_length (N : Nat) : (alternating N).length = N := by
  simp [alternating]

theorem alternating_get (N n : Nat) (h1 : 1 ≤ n) (h2 : n ≤ N) :
    (alternating N)[n - 1]? = some (if n % 2 = 1 then 3 else 7) := by
  have hlt : n - 1 < N := by omega
  simp only [alternating, List.getElem?_map, List.getElem?_range hlt, Option.map_some']
  have : ((n - 1) % 2 = 0) ↔ (n % 2 = 1) := by omega
  simp only [this]

theorem loop_body_reg_inv (hdr : Header) (env : Env) (fuel : Nat) (s s' : State)
    (hinv : RegInv hdr s) (h : loop_body hdr env fuel s = some s') : RegInv hdr s' := by
  obtain ⟨i1, i2, i3, i4, i5, i6, i7⟩ := hinv
  obtain ⟨a1, a2, a3, _, a5, _⟩ := loop_body_spec hdr env fuel s s' i1 i2 h
  refine ⟨by rw [a1]; exact i1, by rw [a2]; exact i2, by rw [a1]; exact i3,
    by rw [a2]; exact i4, ?_, ?_, ?_⟩
  · rw [a3]
    split
    · split
      · exact Or.inr rfl
      · exact Or.inl rfl
    · exact i5
  · by_cases hp2 : TST_BIT (s.peek env .P4IN) BUTTON1 = 0
    · simp only [hp2, if_true] at a3 a5
      rw [a5.1, a3]
    · simp only [hp2, if_false] at a3 a5
      rw [a5.1, a3, i6]
  · by_cases hp2 : TST_BIT (s.peek env .P4IN) BUTTON1 = 0
    · simp only [hp2, if_true] at a3 a5
      rw [a5.2, a3]
    · simp only [hp2, if_false] at a3 a5
      rw [a5.2, a3, i7]

theorem loop_body_trace_inv (hdr : Header) (env : Env) (fuel : Nat) (s s' : State)
    (h1 : s.regs .P1OUT < 2 ^ 8) (h6 : s.regs .P6OUT < 2 ^ 8)
    (hinv : TraceInv s) (h : loop_body hdr env fuel s = some s') : TraceInv s' := by
  obtain ⟨t1, t2, t3⟩ := hinv
  obtain ⟨_, _, a3, a4, _, _⟩ := loop_body_spec hdr env fuel s s' h1 h6 h
  obtain ⟨o1, o2, o3⟩ := loop_body_observe hdr env fuel s s' h1 h6 h
  refine ⟨?_, ?_, ?_⟩
  · rw [o1, o2, t1]
    by_cases hp1 : TST_BIT (s.peek env .P2IN) BUTTON = 0
    · simp only [hp1, if_true]
      rw [alternating_succ, t2]
    · simp only [hp1, if_false, List.append_nil, Nat.add_zero]
  · rw [a4, o2, t2]
    by_cases hp1 : TST_BIT (s.peek env .P2IN) BUTTON = 0
    · simp only [hp1, if_true]
      rcases Nat.mod_two_eq_zero_or_one (s.trace.countP button1_press) with hpar | hpar
      · have : (s.trace.countP button1_press + 1) % 2 = 1 := by omega
        simp [hpar, this]
      · have : (s.trace.countP button1_press + 1) % 2 = 0 := by omega
        simp [hpar, this]
    · simp only [hp1, if_false, Nat.add_zero]
  · rw [a3, o3, t3]
    by_cases hp2 : TST_BIT (s.peek env .P4IN) BUTTON1 = 0
    · simp only [hp2, if_true]
      rcases Nat.mod_two_eq_zero_or_one (s.trace.countP button2_press) with hpar | hpar
      · have : (s.trace.countP button2_press + 1) % 2 = 1 := by omega
        simp [hpar, this]
      · have : (s.trace.countP button2_press + 1) % 2 = 0 := by omega
        simp [hpar, this]
    · simp only [hp2, if_false, Nat.add_zero]

theorem main_loop_inv (hdr : Header) (env : Env) (fuel : Nat) (k : Nat) (s s' : State)
    (hreg : RegInv hdr s) (h : main_loop hdr env fuel k s = some s') :
    RegInv hdr s' ∧ (TraceInv s → TraceInv s') := by
  induction k generalizing s with
  | zero =>
    simp only [main_loop, Option.some.injEq] at h
    subst h
    exact ⟨hreg, id⟩
  | succ k ih =>
    simp only [main_loop] at h
    cases hb : loop_body hdr env fuel s with
    | none => simp [hb] at h
    | some t =>
      simp only [hb, Option.some_bind] at h
      obtain ⟨r, tr⟩ := ih t (loop_body_reg_inv hdr env fuel s t hreg hb) h
      exact ⟨r, fun ht => tr (loop_body_trace_inv hdr env fuel s t hreg.1 hreg.2.1 ht hb)⟩

theorem main_inv (hdr : Header) (env : Env) (fuel : Nat) (k : Nat) (s0 s : State)
    (h : main hdr env fuel k s0 = some s) :
    RegInv hdr s ∧ (s0.trace = [] → TraceInv s) := by
  unfold main at h
  cases hi : main_init hdr env fuel s0 with
  | none => simp [hi] at h
  | some t =>
    simp only [hi, Option.some_bind] at h
    obtain ⟨r0, m0, b0, evs, tr0, q0⟩ := main_init_spec hdr env fuel s0 t hi
    obtain ⟨r, tr⟩ := main_loop_inv hdr env fuel k t s r0 h
    refine ⟨r, fun hnil => tr ?_⟩
    obtain ⟨o1, o2, o3⟩ := quiet_events_observe evs q0
    rw [hnil, List.nil_append] at tr0
    refine ⟨?_, ?_, ?_⟩
    · rw [tr0, o1, o2]; rfl
    · rw [tr0, o2, b0]; rfl
    · rw [tr0, o3, m0]; rfl

/-! ## Invariants of `main` -/

/-- C1: starting from power-on with an empty trace, at the start of every
iteration of the main loop the calls of `blink_led` made so far are one per
serviced press of button 1, the `N`-th of them has argument 3 when `N` is odd
and 7 when `N` is even, and the stored blink count is 7 after an odd and 3 after
an even number of serviced presses, whatever the inputs on button 2 are. -/
theorem blink_count_alternation (hdr : Header) (env : Env) (fuel k : Nat) (s0 s : State)
    (hstart : s0.trace = []) (h : main hdr env fuel k s0 = some s) :
    (blink_calls s.trace).length = s.trace.countP button1_press ∧
    (∀ N, 1 ≤ N → N ≤ s.trace.countP button1_press →
      (blink_calls s.trace)[N - 1]? = some (if N % 2 = 1 then 3 else 7)) ∧
    s.led_blinks = (if s.trace.countP button1_press % 2 = 1 then 7 else 3) ∧
    (s.led_blinks = 3 ∨ s.led_blinks = 7) := by
  obtain ⟨t1, t2, _⟩ := (main_inv hdr env fuel k s0 s h).2 hstart
  refine ⟨by rw [t1, alternating_length], ?_, ?_, ?_⟩
  · intro N hN1 hN2
    rw [t1]
    exact alternating_get _ N hN1 hN2
  · rw [t2]
    rcases Nat.mod_two_eq_zero_or_one (s.trace.countP button1_press) with hpar | hpar <;>
      simp [hpar]
  · rw [t2]
    split
    · exact Or.inl rfl
    · exact Or.inr rfl

theorem blink_count_alternation_witness :
    power_on.trace = [] ∧
    ∃ s, main msp430fr2355 env_slow 10 4 power_on = some s ∧
      s.trace.countP button1_press = 2 ∧ blink_calls s.trace = [3, 7] ∧
      (blink_calls s.trace).length = s.trace.countP button1_press ∧
      (∀ N, 1 ≤ N → N ≤ s.trace.countP button1_press →
        (blink_calls s.trace)[N - 1]? = some (if N % 2 = 1 then 3 else 7)) ∧
      s.led_blinks = (if s.trace.countP button1_press % 2 = 1 then 7 else 3) ∧
      (s.led_blinks = 3 ∨ s.led_blinks = 7) :=
  ⟨rfl, _, (Option.some_get (by decide)).symm, by decide, by decide,
    blink_count_alternation msp430fr2355 env_slow 10 4 power_on _ rfl
      (Option.some_get (by decide)).symm⟩

/-- C7: at the start of every iteration of the main loop, for every sequence of
inputs, the stored `clock_mode` is 0 or 1, `CSCTL2` holds
`FLLD_0 + (clock_mode ? 731 : 244)` and `CSCTL1` holds
`clock_mode ? DCORSEL_7 : DCORSEL_3`. -/
theorem clock_mode_invariant (hdr : Header) (env : Env) (fuel k : Nat) (s0 s : State)
    (hfit : hdr.Fits) (h : main hdr env fuel k s0 = some s) :
    (s.clock_mode = 0 ∨ s.clock_mode = 1) ∧
    s.regs .CSCTL2 = hdr.FLLD_0 + (if s.clock_mode ≠ 0 then 731 else 244) ∧
    s.regs .CSCTL1 = (if s.clock_mode ≠ 0 then hdr.DCORSEL_7 else hdr.DCORSEL_3) := by
  obtain ⟨f3, f7, fm⟩ := hfit
  obtain ⟨_, _, _, _, r5, r6, r7⟩ := (main_inv hdr env fuel k s0 s h).1
  refine ⟨r5, ?_, ?_⟩
  · rw [r7]
    apply Nat.mod_eq_of_lt
    split <;> omega
  · rw [r6]
    apply Nat.mod_eq_of_lt
    split <;> assumption

theorem clock_mode_invariant_witness :
    msp430fr2355.Fits ∧
    ∃ s, main msp430fr2355 env_slow 10 1 power_on = some s ∧
      s.clock_mode = 0 ∧ s.regs .CSCTL2 = 244 ∧
      (s.clock_mode = 0 ∨ s.clock_mode = 1) ∧
      s.regs .CSCTL2 = msp430fr2355.FLLD_0 + (if s.clock_mode ≠ 0 then 731 else 244) ∧
      s.regs .CSCTL1 =
        (if s.clock_mode ≠ 0 then msp430fr2355.DCORSEL_7 else msp430fr2355.DCORSEL_3) :=
  ⟨by decide, _, (Option.some_get (by decide)).symm, by decide, by decide,
    clock_mode_invariant msp430fr2355 env_slow 10 1 power_on _ (by decide)
      (Option.some_get (by decide)).symm⟩

theorem blink_led_loop_count (i : Nat) (s : State) :
    (blink_led_loop i s).trace.countP red_write = s.trace.countP red_write + 2 * i := by
  induction i generalizing s with
  | zero => simp [blink_led_loop]
  | succ i ih =>
    rw [blink_led_loop, ih]
    simp only [blink_once, store_trace, wait_trace, List.countP_append, List.countP_cons,
      List.countP_nil, red_write]
    simp
    ring

theorem blink_led_count (n : Int) (s : State) :
    ((blink_led n s).trace.countP red_write : Int) = s.trace.countP red_write + 2 * max n 0 := by
  rw [blink_led, blink_led_loop_count]
  simp only [log_trace, List.countP_append, List.countP_cons, List.countP_nil, red_write]
  push_cast
  rw [Int.toNat_eq_max]
  simp

/-- C10: `blink_led(n)` is total, makes exactly `2 * max(n, 0)` stores to `P1OUT`,
each the previous value with the LED bit toggled, and leaves `P1OUT` as it was;
`signal_clock_change_success` leaves `P6OUT` as it was; hence, at the start of
every iteration of the main loop, for every sequence of inputs, the LED bit of
`P1OUT` and the LED1 bit of `P6OUT` are both 0. -/
theorem leds_off_invariant :
    (∀ (n : Int) (s : State),
      ((blink_led n s).trace.countP red_write : Int) =
        s.trace.countP red_write + 2 * max n 0 ∧
      (s.regs .P1OUT < 2 ^ 8 →
        (blink_led n s).regs .P1OUT = s.regs .P1OUT ∧
        (blink_led n s).trace = s.trace ++ Event.call_blink_led n ::
          blink_events (s.regs .P1OUT) n.toNat)) ∧
    (∀ s : State, s.regs .P6OUT < 2 ^ 8 →
      (signal_clock_change_success s).regs .P6OUT = s.regs .P6OUT) ∧
    (∀ (hdr : Header) (env : Env) (fuel k : Nat) (s0 s : State),
      main hdr env fuel k s0 = some s →
      s.regs .P1OUT &&& LED = 0 ∧ s.regs .P6OUT &&& LED1 = 0) := by
  refine ⟨fun n s => ⟨blink_led_count n s, fun hb => ?_⟩, fun s hb => ?_, ?_⟩
  · rw [blink_led_eq n s hb]
    exact ⟨rfl, rfl⟩
  · rw [signal_eq s hb]
  · intro hdr env fuel k s0 s h
    obtain ⟨_, _, r3, r4, _⟩ := (main_inv hdr env fuel k s0 s h).1
    exact ⟨r3, r4⟩

theorem leds_off_invariant_witness :
    ((blink_led 3 power_on).trace.countP red_write : Int) = 6 ∧
    (blink_led (-2) power_on).trace.countP red_write = 0 ∧
    ∃ s, main msp430fr2355 env_slow 10 4 power_on = some s ∧
      s.regs .P1OUT &&& LED = 0 ∧ s.regs .P6OUT &&& LED1 = 0 :=
  ⟨(leds_off_invariant.1 3 power_on).1, by decide, _, (Option.some_get (by decide)).symm,
    leds_off_invariant.2.2 msp430fr2355 env_slow 10 4 power_on _
      (Option.some_get (by decide)).symm⟩

/-! ## Single iterations of the main loop -/

/-- C5: from a state with `clock_mode = 1` and `led_blinks = 3` (as after
initialisation), an iteration in which button 2 reads high and button 1 reads
low completes for every fuel, performs exactly the two button reads, the call
`blink_led(3)` and three toggle pairs of `P1OUT`, each toggle followed by a wait
of 5,000,000 cycles, sets `led_blinks` to 7, leaves `clock_mode` and every
register as it was, and every store of the iteration is a store to `P1OUT`. -/
theorem button1_scenario (hdr : Header) (env : Env) (fuel : Nat) (s : State)
    (hmode : s.clock_mode = 1) (hblinks : s.led_blinks = 3)
    (hbyte : s.regs .P1OUT < 2 ^ 8)
    (hb2 : TST_BIT (s.peek env .P4IN) BUTTON1 ≠ 0)
    (hb1 : TST_BIT (s.peek env .P2IN) BUTTON = 0) :
    ∃ s', loop_body hdr env fuel s = some s' ∧
      s'.trace = s.trace ++
        [Event.read .P4IN (s.peek env .P4IN), Event.read .P2IN (s.peek env .P2IN),
          Event.call_blink_led 3,
          Event.write .P1OUT (s.regs .P1OUT ^^^ LED), Event.delay 5000000,
          Event.write .P1OUT (s.regs .P1OUT), Event.delay 5000000,
          Event.write .P1OUT (s.regs .P1OUT ^^^ LED), Event.delay 5000000,
          Event.write .P1OUT (s.regs .P1OUT), Event.delay 5000000,
          Event.write .P1OUT (s.regs .P1OUT ^^^ LED), Event.delay 5000000,
          Event.write .P1OUT (s.regs .P1OUT), Event.delay 5000000] ∧
      s'.led_blinks = 7 ∧ s'.clock_mode = 1 ∧ s'.regs = s.regs ∧
      (s'.trace.drop s.trace.length).countP red_write = 6 ∧
      (∀ e ∈ s'.trace.drop s.trace.length, ∀ r v, e = Event.write r v → r = .P1OUT) := by
  have hl : loop_body hdr env fuel s = some (button1_check env (s.input env .P4IN)) := by
    simp [loop_body, hb2]
  have tpeek : (s.input env .P4IN).peek env .P2IN = s.peek env .P2IN :=
    input_peek_ne env s _ _ (by decide)
  obtain ⟨c1, c2, _, c4, c5⟩ := button1_check_spec env (s.input env .P4IN) hbyte
  rw [tpeek] at c4 c5
  simp only [hb1, if_true, input_led_blinks, input_regs, input_trace, hblinks] at c4 c5
  have htr : (button1_check env (s.input env .P4IN)).trace = s.trace ++
        [Event.read .P4IN (s.peek env .P4IN), Event.read .P2IN (s.peek env .P2IN),
          Event.call_blink_led 3,
          Event.write .P1OUT (s.regs .P1OUT ^^^ LED), Event.delay 5000000,
          Event.write .P1OUT (s.regs .P1OUT), Event.delay 5000000,
          Event.write .P1OUT (s.regs .P1OUT ^^^ LED), Event.delay 5000000,
          Event.write .P1OUT (s.regs .P1OUT), Event.delay 5000000,
          Event.write .P1OUT (s.regs .P1OUT ^^^ LED), Event.delay 5000000,
          Event.write .P1OUT (s.regs .P1OUT), Event.delay 5000000] := by
    rw [c5]
    simp [blink_events, DELAY]
  refine ⟨_, hl, htr, by simpa using c4, by rw [c2]; exact hmode, c1, ?_, ?_⟩
  · rw [htr, List.drop_left]
    simp [List.countP_cons, red_write]
  · rw [htr, List.drop_left]
    intro e he r v hev
    subst hev
    simp only [List.mem_cons, List.mem_singleton, List.mem_nil_iff, or_false, reduceCtorEq,
      false_or, Event.write.injEq] at he
    rcases he with h | h | h | h | h | h <;> exact h.1

theorem button1_scenario_witness :
    main msp430fr2355 env_button1 1 0 power_on = some after_init ∧
    after_init.clock_mode = 1 ∧ after_init.led_blinks = 3 ∧
    after_init.regs .P1OUT < 2 ^ 8 ∧
    TST_BIT (after_init.peek env_button1 .P4IN) BUTTON1 ≠ 0 ∧
    TST_BIT (after_init.peek env_button1 .P2IN) BUTTON = 0 ∧
    ∃ s', loop_body msp430fr2355 env_button1 0 after_init = some s' ∧
      s'.led_blinks = 7 ∧ s'.clock_mode = 1 ∧ s'.regs = after_init.regs ∧
      (s'.trace.drop after_init.trace.length).countP red_write = 6 :=
  ⟨rfl, by decide, by decide, by decide, by decide, by decide,
    let ⟨s', h1, _, h3, h4, h5, h6, _⟩ :=
      button1_scenario msp430fr2355 env_button1 0 after_init (by decide) (by decide)
        (by decide) (by decide) (by decide)
    ⟨s', h1, h3, h4, h5, h6⟩⟩

theorem button1_check_released (env : Env) (t : State)
    (hb1 : TST_BIT (t.peek env .P2IN) BUTTON ≠ 0) :
    button1_check env t = t.input env .P2IN := by
  unfold button1_check
  rw [if_neg hb1]

theorem loop_body_pressed2 (hdr : Header) (env : Env) (fuel : Nat) (s : State)
    (hb2 : TST_BIT (s.peek env .P4IN) BUTTON1 = 0) :
    loop_body hdr env fuel s =
      (set_clock_system hdr env fuel (if s.clock_mode = 0 then 1 else 0)
        ((s.input env .P4IN).set_clock_mode (if s.clock_mode = 0 then 1 else 0))).bind
        fun sc => some (button1_check env ((signal_clock_change_success sc).wait (DELAY / 2))) := by
  have hbr : button2_branch hdr env fuel (s.input env .P4IN) =
      (set_clock_system hdr env fuel (if s.clock_mode = 0 then 1 else 0)
        ((s.input env .P4IN).set_clock_mode (if s.clock_mode = 0 then 1 else 0))).bind
        fun sc => some ((signal_clock_change_success sc).wait (DELAY / 2)) := rfl
  unfold loop_body
  rw [if_pos hb2, hbr]
  cases set_clock_system hdr env fuel (if s.clock_mode = 0 then 1 else 0)
      ((s.input env .P4IN).set_clock_mode (if s.clock_mode = 0 then 1 else 0)) <;> rfl

theorem blink_led_loop_waits (i : Nat) (s : State) :
    ∃ evs, (blink_led_loop i s).trace = s.trace ++ evs ∧
      evs.countP is_delay = 2 * i ∧
      ∀ e ∈ evs, is_delay e = true → e = Event.delay DELAY := by
  induction i generalizing s with
  | zero => exact ⟨[], by simp [blink_led_loop], rfl, by simp⟩
  | succ i ih =>
    obtain ⟨evs, h1, h2, h3⟩ := ih (blink_once s)
    refine ⟨[Event.write .P1OUT ((s.regs .P1OUT ^^^ LED) % 2 ^ width .P1OUT),
      Event.delay DELAY,
      Event.write .P1OUT
        ((((s.store .P1OUT (s.load .P1OUT ^^^ LED)).wait DELAY).load .P1OUT ^^^ LED) %
          2 ^ width .P1OUT),
      Event.delay DELAY] ++ evs, ?_, ?_, ?_⟩
    · rw [blink_led_loop, h1]
      simp only [blink_once, store_trace, wait_trace, load_eq, List.append_assoc,
        List.singleton_append, List.cons_append, List.nil_append]
    · rw [List.countP_append, h2]
      simp [List.countP_cons, is_delay]
      omega
    · intro e he hd
      rcases List.mem_append.mp he with h | h
      · simp only [List.mem_cons, List.mem_singleton, List.mem_nil_iff, or_false] at h
        rcases h with h | h | h | h
        · subst h; simp [is_delay] at hd
        · exact h
        · subst h; simp [is_delay] at hd
        · exact h
      · exact h3 e h hd

theorem blink_led_loop_led_blinks (i : Nat) (s : State) :
    (blink_led_loop i s).led_blinks = s.led_blinks := by
  induction i generalizing s with
  | zero => rfl
  | succ i ih =>
    rw [blink_led_loop, ih]
    rfl

theorem blink_led_led_blinks (n : Int) (s : State) :
    (blink_led n s).led_blinks = s.led_blinks := by
  rw [blink_led, blink_led_loop_led_blinks]
  rfl

/-- C9: in an iteration where button 2 reads low and button 1 reads high, the
iteration completes exactly when the call of `set_clock_system` returns; it
then has performed, in order, the read of `P4IN`, the inversion of
`clock_mode`, `set_clock_system` with the new mode (clock events only, whose
only wait is the three-cycle one), `signal_clock_change_success` as two stores
to `P6OUT` with one wait of 5,000,000 cycles between them and none after the
second, the debounce wait of 2,500,000 cycles, and the read of `P2IN`; it makes
no store to `P1OUT` and leaves `led_blinks` unchanged. The button-1 branch adds
to the trace exactly what `blink_led` adds, so it issues no further wait: when
button 1 reads low, `button1_check` is `blink_led(led_blinks)` followed by the
assignment to `led_blinks` and nothing else; an iteration with only button 1
low completes for every fuel, its trace is the two button reads followed by the
trace of `blink_led`, with exactly `2 * max(led_blinks, 0)` waits, all of
5,000,000 cycles; and with button 2 low as well the trace of the iteration ends
with the trace of `blink_led`, so no wait follows the blinking. -/
theorem button2_path (hdr : Header) (env : Env) (fuel : Nat) (s : State)
    (hbyte : s.regs .P6OUT < 2 ^ 8)
    (hb2 : TST_BIT (s.peek env .P4IN) BUTTON1 = 0)
    (hb1 : TST_BIT (s.peek env .P2IN) BUTTON ≠ 0) :
    ((∃ s', loop_body hdr env fuel s = some s') ↔
      ∃ sc, set_clock_system hdr env fuel (if s.clock_mode = 0 then 1 else 0)
        ((s.input env .P4IN).set_clock_mode (if s.clock_mode = 0 then 1 else 0)) =
          some sc) ∧
    (∀ s', loop_body hdr env fuel s = some s' →
      ∃ sc evs, set_clock_system hdr env fuel (if s.clock_mode = 0 then 1 else 0)
          ((s.input env .P4IN).set_clock_mode (if s.clock_mode = 0 then 1 else 0)) =
            some sc ∧
        (∀ e ∈ evs, clock_event e = true) ∧
        (∀ e ∈ evs, is_delay e = true → e = Event.delay 3) ∧
        sc.trace = s.trace ++ Event.read .P4IN (s.peek env .P4IN) ::
          Event.call_set_clock_system (if s.clock_mode = 0 then 1 else 0) :: evs ∧
        s'.trace = sc.trace ++
          [Event.call_signal_clock_change_success,
            Event.write .P6OUT (s.regs .P6OUT ^^^ LED1), Event.delay 5000000,
            Event.write .P6OUT (s.regs .P6OUT), Event.delay 2500000,
            Event.read .P2IN (s.peek env .P2IN)] ∧
        s'.clock_mode = (if s.clock_mode = 0 then 1 else 0) ∧
        s'.led_blinks = s.led_blinks ∧
        (s'.trace.drop s.trace.length).countP red_write = 0 ∧
        (s'.trace.drop s.trace.length).countP green_write = 2) ∧
    (∀ t : State, (button1_branch t).trace = (blink_led t.led_blinks t).trace) ∧
    (∀ (env1 : Env) (t : State), TST_BIT (t.peek env1 .P2IN) BUTTON = 0 →
      button1_check env1 t =
        (blink_led t.led_blinks (t.input env1 .P2IN)).set_led_blinks
          (if t.led_blinks = 3 then 7 else 3)) ∧
    (∀ (env1 : Env) (fuel1 : Nat) (t : State),
      TST_BIT (t.peek env1 .P4IN) BUTTON1 ≠ 0 →
      TST_BIT (t.peek env1 .P2IN) BUTTON = 0 →
      ∃ s', loop_body hdr env1 fuel1 t = some s' ∧
        s'.trace =
          (blink_led t.led_blinks ((t.input env1 .P4IN).input env1 .P2IN)).trace ∧
        (s'.trace.drop t.trace.length).countP is_delay = 2 * t.led_blinks.toNat ∧
        (∀ e ∈ s'.trace.drop t.trace.length, is_delay e = true →
          e = Event.delay 5000000)) ∧
    (∀ (env1 : Env) (fuel1 : Nat) (t s' : State),
      TST_BIT (t.peek env1 .P4IN) BUTTON1 = 0 →
      loop_body hdr env1 fuel1 t = some s' →
      ∃ s2, button2_branch hdr env1 fuel1 (t.input env1 .P4IN) = some s2 ∧
        (TST_BIT (s2.peek env1 .P2IN) BUTTON = 0 →
          s'.trace = (blink_led s2.led_blinks (s2.input env1 .P2IN)).trace)) := by
  have hl := loop_body_pressed2 hdr env fuel s hb2
  refine ⟨⟨?_, ?_⟩, ?_, fun t => rfl, ?_, ?_, ?_⟩
  rotate_left 3
  · intro env1 t h1
    unfold button1_check
    rw [if_pos h1]
    unfold button1_branch
    simp only [blink_led_led_blinks, input_led_blinks]
  · intro env1 fuel1 t h2 h1
    have hpeek : (t.input env1 .P4IN).peek env1 .P2IN = t.peek env1 .P2IN :=
      input_peek_ne env1 t _ _ (by decide)
    have hrun : loop_body hdr env1 fuel1 t =
        some ((blink_led t.led_blinks ((t.input env1 .P4IN).input env1 .P2IN)).set_led_blinks
          (if t.led_blinks = 3 then 7 else 3)) := by
      unfold loop_body
      rw [if_neg h2, Option.some_bind]
      unfold button1_check
      rw [if_pos (by rw [hpeek]; exact h1)]
      unfold button1_branch
      simp only [blink_led_led_blinks, input_led_blinks]
    refine ⟨_, hrun, rfl, ?_⟩
    obtain ⟨evs, e1, e2, e3⟩ := blink_led_loop_waits t.led_blinks.toNat
      (((t.input env1 .P4IN).input env1 .P2IN).log (Event.call_blink_led t.led_blinks))
    have htr : ((blink_led t.led_blinks ((t.input env1 .P4IN).input env1 .P2IN)).set_led_blinks
        (if t.led_blinks = 3 then 7 else 3)).trace =
        t.trace ++ ([Event.read .P4IN (t.peek env1 .P4IN),
          Event.read .P2IN ((t.input env1 .P4IN).peek env1 .P2IN),
          Event.call_blink_led t.led_blinks] ++ evs) := by
      rw [set_led_blinks_trace, blink_led, e1]
      simp only [log_trace, input_trace, List.append_assoc, List.singleton_append,
        List.cons_append, List.nil_append]
    rw [htr, List.drop_left]
    constructor
    · rw [List.countP_append, e2]
      simp [List.countP_cons, is_delay]
    · intro e he hd
      rcases List.mem_append.mp he with h | h
      · simp only [List.mem_cons, List.mem_singleton, List.mem_nil_iff, or_false] at h
        rcases h with h | h | h <;> subst h <;> simp [is_delay] at hd
      · exact e3 e h hd
  · intro env1 fuel1 t s' h2 h
    obtain ⟨u, hu, rfl⟩ := loop_body_some hdr env1 fuel1 t s' h
    rw [if_pos h2] at hu
    refine ⟨u, hu, fun h1 => ?_⟩
    unfold button1_check
    rw [if_pos h1]
    rfl
  · rintro ⟨s', h⟩
    rw [hl] at h
    cases hsc : set_clock_system hdr env fuel (if s.clock_mode = 0 then 1 else 0)
        ((s.input env .P4IN).set_clock_mode (if s.clock_mode = 0 then 1 else 0)) with
    | none => rw [hsc] at h; simp at h
    | some sc => exact ⟨sc, rfl⟩
  · rintro ⟨sc, hsc⟩
    rw [hl, hsc]
    exact ⟨_, rfl⟩
  · intro s' h
    rw [hl] at h
    cases hsc : set_clock_system hdr env fuel (if s.clock_mode = 0 then 1 else 0)
        ((s.input env .P4IN).set_clock_mode (if s.clock_mode = 0 then 1 else 0)) with
    | none => rw [hsc] at h; simp at h
    | some sc =>
      rw [hsc] at h
      simp only [Option.some_bind, Option.some.injEq] at h
      obtain ⟨⟨c1, c2, c3, c4, evs, c5, c6⟩, _, _⟩ :=
        set_clock_system_spec hdr env fuel _ _ _ hsc
      have hP6 : sc.regs .P6OUT = s.regs .P6OUT := c3 .P6OUT rfl
      have h6' : sc.regs .P6OUT < 2 ^ 8 := by rw [hP6]; exact hbyte
      have hpeek : ((signal_clock_change_success sc).wait (DELAY / 2)).peek env .P2IN =
          s.peek env .P2IN := by
        rw [signal_eq sc h6']
        show env .P2IN (sc.nread .P2IN) = env .P2IN (s.nread .P2IN)
        rw [c4 .P2IN (by decide) (by decide)]
        rfl
      have hsct : sc.trace = s.trace ++ Event.read .P4IN (s.peek env .P4IN) ::
          Event.call_set_clock_system (if s.clock_mode = 0 then 1 else 0) :: evs := by
        rw [c5]
        simp only [log_trace, input_trace, set_clock_mode_trace, List.append_assoc,
          List.singleton_append, List.cons_append, List.nil_append]
      have hs't : s'.trace = sc.trace ++
          [Event.call_signal_clock_change_success,
            Event.write .P6OUT (s.regs .P6OUT ^^^ LED1), Event.delay 5000000,
            Event.write .P6OUT (s.regs .P6OUT), Event.delay 2500000,
            Event.read .P2IN (s.peek env .P2IN)] := by
        rw [← h, button1_check_released env _ (by rw [hpeek]; exact hb1), input_trace, hpeek,
          signal_eq sc h6', hP6]
        simp [signal_events, DELAY]
      refine ⟨sc, evs, rfl, c6, fun e he hd => clock_event_delay e (c6 e he) hd, hsct, hs't,
        ?_, ?_, ?_, ?_⟩
      · rw [← h, button1_check_released env _ (by rw [hpeek]; exact hb1)]
        exact c1
      · rw [← h, button1_check_released env _ (by rw [hpeek]; exact hb1)]
        exact c2
      · rw [hs't, hsct, List.append_assoc, List.drop_left]
        have := clock_events_count red_write evs c6 clock_event_not_red
        simp [List.countP_cons, red_write, this]
      · rw [hs't, hsct, List.append_assoc, List.drop_left]
        have := clock_events_count green_write evs c6 clock_event_not_green
        simp [List.countP_cons, green_write, this]

theorem button2_path_witness :
    after_init.regs .P6OUT < 2 ^ 8 ∧
    TST_BIT (after_init.peek env_button2 .P4IN) BUTTON1 = 0 ∧
    TST_BIT (after_init.peek env_button2 .P2IN) BUTTON ≠ 0 ∧
    ∃ s', loop_body msp430fr2355 env_button2 1 after_init = some s' ∧
      s'.clock_mode = (if after_init.clock_mode = 0 then 1 else 0) ∧
      s'.led_blinks = after_init.led_blinks ∧
      (s'.trace.drop after_init.trace.length).countP red_write = 0 ∧
      (s'.trace.drop after_init.trace.length).countP green_write = 2 ∧
      ∃ s1, loop_body msp430fr2355 env_button1 0 after_init = some s1 ∧
        (s1.trace.drop after_init.trace.length).countP is_delay =
          2 * after_init.led_blinks.toNat ∧
        (∀ e ∈ s1.trace.drop after_init.trace.length, is_delay e = true →
          e = Event.delay 5000000) :=
  ⟨by decide, by decide, by decide, _, (Option.some_get (by decide)).symm,
    let ⟨_, _, _, _, _, _, _, h6, h7, h8, h9⟩ :=
      (button2_path msp430fr2355 env_button2 1 after_init (by decide) (by decide)
        (by decide)).2.1 _ (Option.some_get (by decide)).symm
    let ⟨s1, k1, _, k3, k4⟩ :=
      (button2_path msp430fr2355 env_button2 1 after_init (by decide) (by decide)
        (by decide)).2.2.2.2.1 env_button1 0 after_init (by decide) (by decide)
    ⟨h6, h7, h8, h9, s1, k1, k3, k4⟩⟩

/-- C6: in an iteration where both buttons read low, the iteration completes
exactly when the call of `set_clock_system` returns; it then has inverted
`clock_mode`, re-applied the clock configuration for the new mode, and set
`led_blinks` to 7 if it was 3 and to 3 otherwise after the call
`blink_led(led_blinks)`. The trace of the iteration is the complete trace of the
button-2 branch (clock events, the two stores to `P6OUT`, the debounce wait),
which contains no store to `P1OUT`, followed by the read of `P2IN` and the
events of `blink_led`. -/
theorem simultaneous_press (hdr : Header) (env : Env) (fuel : Nat) (s : State)
    (hred : s.regs .P1OUT < 2 ^ 8) (hgreen : s.regs .P6OUT < 2 ^ 8)
    (hb2 : TST_BIT (s.peek env .P4IN) BUTTON1 = 0)
    (hb1 : TST_BIT (s.peek env .P2IN) BUTTON = 0) :
    ((∃ s', loop_body hdr env fuel s = some s') ↔
      ∃ sc, set_clock_system hdr env fuel (if s.clock_mode = 0 then 1 else 0)
        ((s.input env .P4IN).set_clock_mode (if s.clock_mode = 0 then 1 else 0)) =
          some sc) ∧
    (∀ s', loop_body hdr env fuel s = some s' →
      s'.clock_mode = (if s.clock_mode = 0 then 1 else 0) ∧
      s'.led_blinks = (if s.led_blinks = 3 then 7 else 3) ∧
      s'.regs .CSCTL1 = (if (if s.clock_mode = 0 then (1 : Int) else 0) ≠ 0 then hdr.DCORSEL_7
        else hdr.DCORSEL_3) % 2 ^ 16 ∧
      s'.regs .CSCTL2 = (hdr.FLLD_0 + (if (if s.clock_mode = 0 then (1 : Int) else 0) ≠ 0
        then 731 else 244)) % 2 ^ 16 ∧
      ∃ s2 evs, button2_branch hdr env fuel (s.input env .P4IN) = some s2 ∧
        (∀ e ∈ evs, clock_event e = true) ∧
        s2.trace = s.trace ++ Event.read .P4IN (s.peek env .P4IN) ::
          Event.call_set_clock_system (if s.clock_mode = 0 then 1 else 0) :: evs ++
          signal_events (s.regs .P6OUT) ++ [Event.delay 2500000] ∧
        (s2.trace.drop s.trace.length).countP red_write = 0 ∧
        s'.trace = s2.trace ++ Event.read .P2IN (s.peek env .P2IN) ::
          Event.call_blink_led s.led_blinks ::
            blink_events (s.regs .P1OUT) s.led_blinks.toNat ∧
        (blink_events (s.regs .P1OUT) s.led_blinks.toNat).countP clock_write = 0 ∧
        (blink_events (s.regs .P1OUT) s.led_blinks.toNat).countP green_write = 0) := by
  have hl := loop_body_pressed2 hdr env fuel s hb2
  refine ⟨⟨?_, ?_⟩, ?_⟩
  · rintro ⟨s', h⟩
    rw [hl] at h
    cases hsc : set_clock_system hdr env fuel (if s.clock_mode = 0 then 1 else 0)
        ((s.input env .P4IN).set_clock_mode (if s.clock_mode = 0 then 1 else 0)) with
    | none => rw [hsc] at h; simp at h
    | some sc => exact ⟨sc, rfl⟩
  · rintro ⟨sc, hsc⟩
    rw [hl, hsc]
    exact ⟨_, rfl⟩
  · intro s' h
    obtain ⟨t, ht, rfl⟩ := loop_body_some hdr env fuel s s' h
    rw [if_pos hb2] at ht
    obtain ⟨b1, b2, b3, b4, b5, b6, evs, b7, b8⟩ :=
      button2_branch_spec hdr env fuel (s.input env .P4IN) t hgreen ht
    have tP1 : t.regs .P1OUT = s.regs .P1OUT := b3 .P1OUT rfl
    have tpeek : t.peek env .P2IN = s.peek env .P2IN := by
      unfold State.peek
      rw [b4 .P2IN (by decide) (by decide), input_nread_ne _ _ _ _ (by decide)]
    obtain ⟨c1, c2, _, c4, c5⟩ := button1_check_spec env t (by rw [tP1]; exact hred)
    rw [tpeek, if_pos hb1] at c4 c5
    have htr : t.trace = s.trace ++ Event.read .P4IN (s.peek env .P4IN) ::
          Event.call_set_clock_system (if s.clock_mode = 0 then 1 else 0) :: evs ++
          signal_events (s.regs .P6OUT) ++ [Event.delay 2500000] := by
      rw [b8]
      simp only [input_trace, input_regs, input_clock_mode, List.append_assoc,
        List.singleton_append, List.cons_append, List.nil_append]
      rfl
    have hq := blink_events_mem (s.regs .P1OUT) s.led_blinks.toNat
    refine ⟨by rw [c2, b1]; rfl, by rw [c4, b2]; rfl, by rw [c1, b5]; rfl, by rw [c1, b6]; rfl,
      t, evs, ht, b7, htr, ?_, ?_, ?_, ?_⟩
    · rw [htr]
      simp only [List.append_assoc, List.cons_append, List.drop_left]
      have := clock_events_count red_write evs b7 clock_event_not_red
      simp [List.countP_cons, red_write, signal_events, this]
    · rw [c5, b2, tP1]
      rfl
    · rw [List.countP_eq_zero]
      intro e he
      rcases hq e he with h | h | h <;> subst h <;> simp [clock_write, clock_reg]
    · rw [List.countP_eq_zero]
      intro e he
      rcases hq e he with h | h | h <;> subst h <;> simp [green_write]

theorem simultaneous_press_witness :
    after_init.regs .P1OUT < 2 ^ 8 ∧ after_init.regs .P6OUT < 2 ^ 8 ∧
    TST_BIT (after_init.peek env_both .P4IN) BUTTON1 = 0 ∧
    TST_BIT (after_init.peek env_both .P2IN) BUTTON = 0 ∧
    ∃ s', loop_body msp430fr2355 env_both 1 after_init = some s' ∧
      s'.clock_mode = (if after_init.clock_mode = 0 then 1 else 0) ∧
      s'.led_blinks = (if after_init.led_blinks = 3 then 7 else 3) ∧
      s'.clock_mode = 0 ∧ s'.led_blinks = 7 :=
  ⟨by decide, by decide, by decide, by decide, _, (Option.some_get (by decide)).symm,
    ((simultaneous_press msp430fr2355 env_both 1 after_init (by decide) (by decide)
      (by decide) (by decide)).2 _ (Option.some_get (by decide)).symm).1,
    ((simultaneous_press msp430fr2355 env_both 1 after_init (by decide) (by decide)
      (by decide) (by decide)).2 _ (Option.some_get (by decide)).symm).2.1,
    by decide, by decide⟩

/-! ## The last store to `CSCTL2` -/

theorem last_write_snoc (r : Reg) (tr : List Event) (e : Event) :
    last_write r (tr ++ [e]) =
      (match e with
      | .write r' v => if r' = r then some v else last_write r tr
      | _ => last_write r tr) := by
  simp only [last_write, List.foldl_append, List.foldl_cons, List.foldl_nil]

theorem logged_store_eq (s : State) (v : Nat) : TuningLogged (s.store .CSCTL2 v) := by
  unfold TuningLogged
  rw [store_trace, last_write_snoc, store_regs_same]
  simp

theorem logged_store_ne (s : State) (r : Reg) (v : Nat) (hr : r ≠ .CSCTL2)
    (h : TuningLogged s) : TuningLogged (s.store r v) := by
  unfold TuningLogged at h ⊢
  rw [store_trace, last_write_snoc, store_regs_ne _ _ _ _ (Ne.symm hr)]
  simp only [hr, if_false]
  exact h

theorem logged_log (s : State) (e : Event) (he : ∀ r v, e ≠ Event.write r v)
    (h : TuningLogged s) : TuningLogged (s.log e) := by
  unfold TuningLogged at h ⊢
  rw [log_trace, last_write_snoc, log_regs]
  cases e with
  | write r v => exact absurd rfl (he r v)
  | _ => exact h

theorem logged_wait (s : State) (n : Nat) (h : TuningLogged s) : TuningLogged (s.wait n) :=
  logged_log s _ (fun _ _ => Event.noConfusion) h

theorem logged_input (env : Env) (s : State) (r : Reg) (h : TuningLogged s) :
    TuningLogged (s.input env r) := by
  unfold TuningLogged at h ⊢
  rw [input_trace, last_write_snoc, input_regs]
  exact h

theorem logged_fll_wait_loop (hdr : Header) (env : Env) (fuel : Nat) (s s' : State)
    (hs : TuningLogged s) (h : fll_wait_loop hdr env fuel s = some s') : TuningLogged s' := by
  induction fuel generalizing s with
  | zero => simp [fll_wait_loop] at h
  | succ fuel ih =>
    simp only [fll_wait_loop] at h
    split at h
    · exact ih _ (logged_input env s _ hs) h
    · cases h
      exact logged_input env s _ hs

theorem logged_clock_tune (hdr : Header) (mode : Int) (s : State) :
    TuningLogged (clock_tune hdr mode s) := by
  unfold clock_tune
  exact logged_store_ne _ _ _ (by decide) (logged_wait _ _ (logged_store_eq _ _))

theorem logged_set_clock_system (hdr : Header) (env : Env) (fuel : Nat) (mode : Int)
    (s s' : State) (h : set_clock_system hdr env fuel mode s = some s') : TuningLogged s' := by
  obtain ⟨s1, s2, _, h2, rfl⟩ := set_clock_system_some hdr env fuel mode s s' h
  exact logged_store_ne _ _ _ (by decide)
    (logged_fll_wait_loop hdr env fuel _ _ (logged_clock_tune hdr mode s1) h2)

theorem logged_configure_pins (s : State) (h : TuningLogged s) :
    TuningLogged (configure_pins s) := by
  unfold configure_pins CLR_BIT
  repeat first
    | exact h
    | refine logged_store_ne _ _ _ (by decide) ?_
    | refine logged_log _ _ (fun _ _ => Event.noConfusion) ?_

theorem logged_signal (s : State) (h : TuningLogged s) :
    TuningLogged (signal_clock_change_success s) := by
  unfold signal_clock_change_success
  repeat first
    | exact h
    | refine logged_store_ne _ _ _ (by decide) ?_
    | refine logged_wait _ _ ?_
    | refine logged_log _ _ (fun _ _ => Event.noConfusion) ?_

theorem logged_blink_led_loop (i : Nat) (s : State) (h : TuningLogged s) :
    TuningLogged (blink_led_loop i s) := by
  induction i generalizing s with
  | zero => exact h
  | succ i ih =>
    apply ih
    unfold blink_once
    repeat first
      | exact h
      | refine logged_store_ne _ _ _ (by decide) ?_
      | refine logged_wait _ _ ?_

theorem logged_button1_check (env : Env) (s : State) (h : TuningLogged s) :
    TuningLogged (button1_check env s) := by
  unfold button1_check
  split
  · exact logged_blink_led_loop _ _
      (logged_log _ _ (fun _ _ => Event.noConfusion) (logged_input env s _ h))
  · exact logged_input env s _ h

theorem logged_loop_body (hdr : Header) (env : Env) (fuel : Nat) (s s' : State)
    (hs : TuningLogged s) (h : loop_body hdr env fuel s = some s') : TuningLogged s' := by
  obtain ⟨t, ht, rfl⟩ := loop_body_some hdr env fuel s s' h
  apply logged_button1_check
  split at ht
  · obtain ⟨sc, hsc, rfl⟩ := button2_branch_some hdr env fuel _ t ht
    exact logged_wait _ _ (logged_signal _ (logged_set_clock_system hdr env fuel _ _ _ hsc))
  · cases ht
    exact logged_input env s _ hs

theorem logged_main (hdr : Header) (env : Env) (fuel k : Nat) (s0 s : State)
    (h : main hdr env fuel k s0 = some s) : TuningLogged s := by
  unfold main at h
  cases hi : main_init hdr env fuel s0 with
  | none => simp [hi] at h
  | some t =>
    simp only [hi, Option.some_bind] at h
    obtain ⟨sc, hsc, rfl⟩ := main_init_some hdr env fuel s0 t hi
    have ht := logged_configure_pins sc (logged_set_clock_system hdr env fuel _ _ _ hsc)
    clear hi hsc
    generalize configure_pins sc = t at h ht
    induction k generalizing t with
    | zero =>
      simp only [main_loop, Option.some.injEq] at h
      subst h
      exact ht
    | succ k ih =>
      simp only [main_loop] at h
      cases hb : loop_body hdr env fuel t with
      | none => simp [hb] at h
      | some u =>
        simp only [hb, Option.some_bind] at h
        exact ih u h (logged_loop_body hdr env fuel t u ht hb)

/-- C2: starting from power-on with an empty trace, at the start of every
iteration of the main loop, when the number of serviced presses of button 2 so
far is even the stored clock mode is 1 and the value last stored to `CSCTL2`
(which the register holds) is `FLLD_0 + 731`, and when it is odd the stored
mode is 0 and that value is `FLLD_0 + 244`. -/
theorem clock_mode_parity (hdr : Header) (env : Env) (fuel k : Nat) (s0 s : State)
    (hfit : hdr.Fits) (hstart : s0.trace = []) (h : main hdr env fuel k s0 = some s) :
    (s.trace.countP button2_press % 2 = 0 →
      s.clock_mode = 1 ∧ last_write .CSCTL2 s.trace = some (hdr.FLLD_0 + 731) ∧
      s.regs .CSCTL2 = hdr.FLLD_0 + 731) ∧
    (s.trace.countP button2_press % 2 = 1 →
      s.clock_mode = 0 ∧ last_write .CSCTL2 s.trace = some (hdr.FLLD_0 + 244) ∧
      s.regs .CSCTL2 = hdr.FLLD_0 + 244) := by
  obtain ⟨_, _, fm⟩ := hfit
  obtain ⟨⟨_, _, _, _, _, _, r7⟩, tr⟩ := main_inv hdr env fuel k s0 s h
  obtain ⟨_, _, t3⟩ := tr hstart
  have hlog : last_write .CSCTL2 s.trace = some (s.regs .CSCTL2) := logged_main hdr env fuel k s0 s h
  constructor
  · intro hpar
    have hm : s.clock_mode = 1 := by rw [t3, if_pos hpar]
    have hreg : s.regs .CSCTL2 = hdr.FLLD_0 + 731 := by
      rw [r7, hm]
      simp only [ne_eq, one_ne_zero, not_false_eq_true, if_true]
      exact Nat.mod_eq_of_lt fm
    exact ⟨hm, by rw [hlog, hreg], hreg⟩
  · intro hpar
    have hm : s.clock_mode = 0 := by
      rw [t3, if_neg (by omega)]
    have hreg : s.regs .CSCTL2 = hdr.FLLD_0 + 244 := by
      rw [r7, hm]
      simp only [ne_eq, not_true_eq_false, if_false]
      exact Nat.mod_eq_of_lt (by omega)
    exact ⟨hm, by rw [hlog, hreg], hreg⟩

theorem clock_mode_parity_witness :
    msp430fr2355.Fits ∧ power_on.trace = [] ∧
    ∃ s, main msp430fr2355 env_slow 10 4 power_on = some s ∧
      s.trace.countP button2_press = 2 ∧
      (s.trace.countP button2_press % 2 = 0 →
        s.clock_mode = 1 ∧
        last_write .CSCTL2 s.trace = some (msp430fr2355.FLLD_0 + 731) ∧
        s.regs .CSCTL2 = msp430fr2355.FLLD_0 + 731) ∧
      (s.trace.countP button2_press % 2 = 1 →
        s.clock_mode = 0 ∧
        last_write .CSCTL2 s.trace = some (msp430fr2355.FLLD_0 + 244) ∧
        s.regs .CSCTL2 = msp430fr2355.FLLD_0 + 244) :=
  ⟨by decide, rfl, _, (Option.some_get (by decide)).symm, by decide,
    clock_mode_parity msp430fr2355 env_slow 10 4 power_on _ (by decide) rfl
      (Option.some_get (by decide)).symm⟩

/-! ## Progress with a stable oscillator -/

theorem set_clock_system_stable (hdr : Header) (env : Env) (hst : Stable hdr env)
    (fuel : Nat) (mode : Int) (s : State) :
    ∃ s', set_clock_system hdr env (fuel + 1) mode s = some s' := by
  have hclear : ofifg_test_clear hdr env (clock_prepare hdr mode s) 0 := hst.1 _
  obtain ⟨t1, ht1⟩ := fault_clear_loop_complete hdr env 0 (fuel + 1) _ hclear (by omega)
  have hlock : fll_read_locked hdr env (clock_tune hdr mode t1) 0 := hst.2 _
  obtain ⟨t2, ht2⟩ := fll_wait_loop_complete hdr env 0 (fuel + 1) _ hlock (by omega)
  exact ⟨clock_select hdr t2, by simp [set_clock_system, ht1, ht2]⟩

theorem loop_body_stable (hdr : Header) (env : Env) (hst : Stable hdr env)
    (fuel : Nat) (s : State) : ∃ s', loop_body hdr env (fuel + 1) s = some s' := by
  unfold loop_body
  split
  · unfold button2_branch
    obtain ⟨sc, hsc⟩ := set_clock_system_stable hdr env hst fuel
      (if (s.input env .P4IN).clock_mode = 0 then 1 else 0)
      ((s.input env .P4IN).set_clock_mode
        (if (s.input env .P4IN).clock_mode = 0 then 1 else 0))
    refine ⟨button1_check env ((signal_clock_change_success sc).wait (DELAY / 2)), ?_⟩
    simp only [set_clock_mode_clock_mode, hsc, Option.some_bind]
  · exact ⟨_, rfl⟩

/-- With a stable oscillator `main` reaches the start of every iteration of its
loop, so the invariants above speak about states that exist. -/
theorem main_progress (hdr : Header) (env : Env) (hst : Stable hdr env)
    (fuel k : Nat) (s0 : State) : ∃ s, main hdr env (fuel + 1) k s0 = some s := by
  obtain ⟨sc, hsc⟩ := set_clock_system_stable hdr env hst fuel 1 (main_prologue hdr s0)
  have hinit : main_init hdr env (fuel + 1) s0 = some (configure_pins sc) := by
    show (set_clock_system hdr env (fuel + 1) 1 (main_prologue hdr s0)).bind
      (fun s => some (configure_pins s)) = some (configure_pins sc)
    rw [hsc]
    rfl
  unfold main
  rw [hinit, Option.some_bind]
  generalize configure_pins sc = t
  induction k generalizing t with
  | zero => exact ⟨t, rfl⟩
  | succ k ih =>
    obtain ⟨u, hu⟩ := loop_body_stable hdr env hst fuel t
    obtain ⟨v, hv⟩ := ih u
    exact ⟨v, by simp only [main_loop, hu, Option.some_bind, hv]⟩

end Msplibs
